import Mathlib

/-!
Verification of the conversation state machine and service layer of the
Citizen-services chatbot (chatbot/src/services and chatbot/src/utils).

The TypeScript sources are shallowly embedded as executable Lean
definitions:

* `Record<string, string>` objects (structured data, `collectedData`) are
  association lists `DataMap` with JavaScript object-spread semantics
  (`mergeMaps`, later keys overwrite earlier ones).  The `attachments`
  property of `collectedData` is modelled by the `attachments` slot of
  `ConversationContext` (`AttachSlot`): one merge-writable slot that
  holds either a genuine attachment array or a string — a turn whose
  structured data contains an `"attachments"` key overwrites the slot
  with that string, exactly as `{...old, ...mergedData}` does in the
  source, and a string slot passes the `.length > 0` checks by its
  string length.  Spreading a string slot (`[...existing, att]`) yields
  its characters, modelled by `AttachEntry.chr` elements.
* JavaScript string truthiness (`data.category && ...`) is modelled by
  `truthy`; `a || b` on optional strings is `jsOr`.
* Dates are modelled as abstract `Nat` time points (the code compares
  `new Date(x) < new Date()`); the current time is passed explicitly.
* Externals (the generative-model call, the Supabase-or-demo services and
  the random generators feeding id / bill fabrication) are passed as
  explicit parameters (`Except String String` for the model call,
  `ServiceEnv` for the services), so theorems quantify over every
  possible behaviour of the externals.
* `processMessage` additionally returns the trace of `createGrievance`
  invocations it performed (`grievanceCalls`), which models the record
  creation side effect.
* Non-ASCII characters inside the repository's string literals are
  stored double-encoded (mojibake) in the repository itself; the
  embedding renders those literals with their intended characters.  No
  claim depends on the exact bytes of a display string.
-/

set_option maxRecDepth 8000

namespace CitizenServices

/-! ## Character-list string primitives

The JavaScript string operations used by the sources (`trim`,
`toLowerCase`, `split`, `indexOf`, `includes`, `startsWith`, regexp
searches) are implemented over `List Char` and wrapped on `String`. -/

/-- Does the list `s` begin with the pattern `pat`? (JS `startsWith`). -/
def leadsWith : List Char → List Char → Bool
  | [], _ => true
  | _ :: _, [] => false
  | p :: ps, c :: cs => p == c && leadsWith ps cs

/-- Index of the first occurrence of `pat` inside `hay`, if any. -/
def findSub (pat : List Char) : List Char → Option Nat
  | [] => if leadsWith pat [] then some 0 else none
  | c :: cs =>
    if leadsWith pat (c :: cs) then some 0
    else (findSub pat cs).map (· + 1)

/-- JS `hay.includes(pat)`. -/
def containsSub (pat hay : List Char) : Bool := (findSub pat hay).isSome

/-- JS `s.includes(pat)` on `String`. -/
def includesS (s pat : String) : Bool := containsSub pat.data s.data

/-- JS `s.startsWith(pat)` on `String`. -/
def beginsWith (s pat : String) : Bool := leadsWith pat.data s.data

/-- JS `trim` (whitespace from both ends) on a character list. -/
def trimC (l : List Char) : List Char :=
  ((l.dropWhile Char.isWhitespace).reverse.dropWhile Char.isWhitespace).reverse

/-- JS `s.trim()`. -/
def trimS (s : String) : String := ⟨trimC s.data⟩

/-- JS `s.toLowerCase()` (ASCII case folding suffices for the sources). -/
def lowerS (s : String) : String := ⟨s.data.map Char.toLower⟩

/-- JS `s.split(sep)` for a single-character separator: every separator
occurrence opens a new chunk, and the empty string splits to `[""]`. -/
def splitOnCharC (sep : Char) : List Char → List (List Char)
  | [] => [[]]
  | c :: cs =>
    let r := splitOnCharC sep cs
    if c == sep then [] :: r
    else
      match r with
      | h :: t => (c :: h) :: t
      | [] => [[c]]

/-- Split a string into its `'\n'`-separated lines (JS `split('\n')`). -/
def splitLinesS (s : String) : List String :=
  (splitOnCharC '\n' s.data).map (fun l => ⟨l⟩)

/-- Split a string on `':'` (JS `split(':')`). -/
def splitColonS (s : String) : List String :=
  (splitOnCharC ':' s.data).map (fun l => ⟨l⟩)

/-- Rejoin with `':'` (JS `valueParts.join(':')`). -/
def joinColon : List String → String
  | [] => ""
  | [x] => x
  | x :: xs => x ++ ":" ++ joinColon xs

/-- JS `s.indexOf(':')` — `none` models `-1`. -/
def firstColonIdx : List Char → Option Nat
  | [] => none
  | c :: cs =>
    if c == ':' then some 0
    else (firstColonIdx cs).map (· + 1)

/-- First maximal run of at least five decimal digits (JS `/\d{5,}/`). -/
def findDigitRun : List Char → Option (List Char)
  | [] => none
  | c :: cs =>
    if c.isDigit then
      let run := c :: cs.takeWhile Char.isDigit
      if 5 ≤ run.length then some run else findDigitRun cs
    else findDigitRun cs

/-- Leftmost occurrence of the literal `tag` followed by exactly five
digits; returns those digits (JS `/gr(\d{5})/i`, `/app(\d{5})/i` on the
already lower-cased message). -/
def findTagDigits (tag : List Char) : List Char → Option (List Char)
  | [] => none
  | c :: cs =>
    let rest := (c :: cs).drop tag.length
    if leadsWith tag (c :: cs) && (rest.take 5).all Char.isDigit && 5 ≤ (rest.take 5).length then
      some (rest.take 5)
    else findTagDigits tag cs

/-! ## Data maps (JS `Record<string, string>`) -/

/-- A flat string-keyed record, as used for structured data and
`collectedData`. -/
abbrev DataMap := List (String × String)

/-- Value of key `k` in the record. -/
def dLookup (m : DataMap) (k : String) : Option String :=
  match m with
  | [] => none
  | (k', v) :: t => if k' = k then some v else dLookup t k

/-- JS property assignment `m[k] = v`: overwrite in place, else append. -/
def insertKV (m : DataMap) (k v : String) : DataMap :=
  match m with
  | [] => [(k, v)]
  | (k', v') :: t => if k' = k then (k, v) :: t else (k', v') :: insertKV t k v

/-- JS object spread `{...old, ...new}` — every key of `new` overwrites. -/
def mergeMaps (old new : DataMap) : DataMap :=
  new.foldl (fun acc kv => insertKV acc kv.1 kv.2) old

/-- JS string truthiness of an optional field: present and non-empty. -/
def truthy (o : Option String) : Bool :=
  match o with
  | some s => s ≠ ""
  | none => false

/-- JS `a || b` on optional strings: `b` whenever `a` is falsy. -/
def jsOr (a b : Option String) : Option String :=
  if truthy a then a else b

/-- JS template rendering of a possibly-undefined string (`${x}`). -/
def renderOpt (o : Option String) : String :=
  match o with
  | some s => s
  | none => "undefined"

/-! ## Domain data model (chatbot/src/types/index.ts) -/

/-- `FlowType` from the types module. -/
inductive FlowType
  | bill_payment
  | grievance
  | certificate
  | license
  | status_tracking
  | general_info
  | idle
deriving DecidableEq, Repr

/-- `Attachment` descriptor.  The `size` field keeps the raw size text of
the message (the code stores `parseFloat(sizeStr)`, a value no claim
reads). -/
structure Attachment where
  id : String
  type : String
  url : String
  name : String
  size : String
deriving DecidableEq, Repr

/-- An element of the `collectedData.attachments` array: either a real
attachment descriptor, or a character — the elements produced when the
spread `[...existing, attachmentData]` is applied to a slot that holds a
string (JS spreads a string into its characters). -/
inductive AttachEntry
  | att (a : Attachment)
  | chr (c : Char)
deriving DecidableEq, Repr

/-- The value of the `attachments` property of `collectedData`.  It is an
ordinary property in the same namespace as the string fields: the
structured-data merge can overwrite it with a *string* (`str`), the
attachment pipeline stores an array (`list`), and a fresh context has no
such property (`undef`). -/
inductive AttachSlot
  | undef
  | list (l : List AttachEntry)
  | str (s : String)
deriving DecidableEq, Repr

/-- JS truthiness of the slot value: `undefined` is falsy, an array is
always truthy (even empty), a string is truthy iff non-empty. -/
def slotTruthy : AttachSlot → Bool
  | AttachSlot.undef => false
  | AttachSlot.list _ => true
  | AttachSlot.str s => s ≠ ""

/-- JS `.length` of the slot value (array length or string length; the
`undef` case is unreachable behind the truthiness guards). -/
def slotLength : AttachSlot → Nat
  | AttachSlot.undef => 0
  | AttachSlot.list l => l.length
  | AttachSlot.str s => s.length

/-- The guarded check `data.attachments && data.attachments.length > 0`
used by the demo grievance flow. -/
def slotHasItems (slot : AttachSlot) : Bool :=
  slotTruthy slot && decide (0 < slotLength slot)

/-- JS array spread `[...existing]` of a slot value: an array spreads to
its elements, a string to its characters. -/
def spreadSlot : AttachSlot → List AttachEntry
  | AttachSlot.undef => []
  | AttachSlot.list l => l
  | AttachSlot.str s => s.data.map AttachEntry.chr

/-- The string-field part of a merged map, with the `"attachments"` key
routed to the slot instead. -/
def stripAttachmentsKey (m : DataMap) : DataMap :=
  m.filter (fun p => p.1 ≠ "attachments")

/-- `ConversationContext`.  `collectedData` holds the string-valued
fields; its `attachments` property is the `attachments` slot (see
`AttachSlot`).  `language` is kept as the raw string the code casts
(`as 'en' | 'hi' | 'hinglish'`). -/
structure ConversationContext where
  currentFlow : Option FlowType
  collectedData : DataMap
  attachments : AttachSlot
  language : Option String
deriving DecidableEq, Repr

/-- Return shape of the response generator (`ChatResponse` in
geminiService): `structuredData = []` models an absent block. -/
structure ChatResponse where
  message : String
  structuredData : DataMap
deriving DecidableEq, Repr

/-- `Bill`; dates are abstract `Nat` time points. -/
structure Bill where
  id : Nat
  consumer_number : String
  bill_type : String
  amount : Nat
  due_date : Nat
  status : String
deriving DecidableEq, Repr

/-- `Grievance` record (status kept as its display string). -/
structure Grievance where
  id : Nat
  grievance_id : String
  citizen_id : String
  category : String
  subcategory : Option String
  description : String
  location : String
  landmark : Option String
  status : String
  created_at : Option String
  assigned_department : Option String
  notes : Option String
deriving DecidableEq, Repr

/-- `Application` record; `details` is the flat string map
`ApplicationDetails`. -/
structure Application where
  id : Nat
  application_id : String
  citizen_id : String
  type : String
  subtype : String
  details : DataMap
  status : String
  created_at : Option String
deriving DecidableEq, Repr

/-- Generic keyed demo store (the `Map<string, _>` demo storages). -/
def storeLookup {α : Type} (store : List (String × α)) (k : String) : Option α :=
  match store with
  | [] => none
  | (k', v) :: t => if k' = k then some v else storeLookup t k

/-! ## utils/helpers.ts -/

/-- Group the reversed digit list in Indian style: 3, then 2, 2, ... -/
def group2 : List Char → List (List Char)
  | [] => []
  | [a] => [[a]]
  | a :: b :: rest => [a, b] :: group2 rest

/-- `formatCurrency`: `Intl.NumberFormat('en-IN', INR, 0 fraction digits)`
on a natural amount, e.g. `123456 ↦ "₹1,23,456"`. -/
def formatCurrency (amount : Nat) : String :=
  let rev := (toString amount).data.reverse
  let parts := rev.take 3 :: group2 (rev.drop 3)
  "₹" ++ String.intercalate "," (((parts.map List.reverse).reverse).map (fun l => (⟨l⟩ : String)))

/-- Shared regexp of both parsers:
`/\[STRUCTURED_DATA\]([\s\S]*?)\[\/STRUCTURED_DATA\]/` plus the
`replace(..., '')` + `trim()` that produces the clean message.  Returns
`(cleanMessage, innerBlock)`.  Leftmost-lazy match: the first open tag
that is followed by a close tag, with the shortest inner block. -/
def extractStructured (response : String) : Option (String × String) :=
  let s := response.data
  match findSub "[STRUCTURED_DATA]".data s with
  | none => none
  | some i =>
    let afterOpen := s.drop (i + 17)
    match findSub "[/STRUCTURED_DATA]".data afterOpen with
    | none => none
    | some j =>
      some (trimS ⟨s.take i ++ afterOpen.drop (j + 18)⟩, ⟨afterOpen.take j⟩)

/-- Line handling of `parseStructuredData` in utils/helpers.ts:
`const [key, ...valueParts] = line.split(':')`, kept when `key` is
truthy and `valueParts` is non-empty. -/
def helpersLineStep (m : DataMap) (line : String) : DataMap :=
  match splitColonS line with
  | [] => m
  | key :: valueParts =>
    if key ≠ "" ∧ valueParts ≠ [] then
      insertKV m (trimS key) (trimS (joinColon valueParts))
    else m

/-- `parseStructuredData` (utils/helpers.ts): returns the cleaned message
and the key→value map parsed from the structured block. -/
def parseStructuredData (response : String) : String × DataMap :=
  match extractStructured response with
  | some (clean, inner) =>
    (clean, (splitLinesS (trimS inner)).foldl helpersLineStep [])
  | none => (response, [])

/-! ## services/billService.ts -/

/-- The demo bill store (dates as `Nat` stand-ins for the ISO strings;
their relative order is never used by the code under verification). -/
def demoBills : List (String × Bill) :=
  [("1234567890", ⟨1, "1234567890", "electricity", 2450, 20241231, "unpaid"⟩),
   ("9876543210", ⟨2, "9876543210", "electricity", 1850, 20250105, "unpaid"⟩),
   ("5555555555", ⟨3, "5555555555", "water", 650, 20241228, "unpaid"⟩),
   ("PROP123456", ⟨4, "PROP123456", "property_tax", 12500, 20250331, "unpaid"⟩)]

/-- `getBill` in demo mode.  The `Math.random()` draws are passed in as
`randAmount`, `randDays`, `randId` (`Math.floor(Math.random()*5000)+500`
becomes `randAmount % 5000 + 500`, `getDate() + Math.floor(Math.random()*30)`
becomes `now + randDays % 30`, `Math.floor(Math.random()*1000)` becomes
`randId % 1000`). -/
def getBill (store : List (String × Bill)) (now randAmount randDays randId : Nat)
    (consumer_number : String) : Option Bill :=
  match storeLookup store consumer_number with
  | some bill => some bill
  | none =>
    some { id := randId % 1000
           consumer_number := consumer_number
           bill_type := "electricity"
           amount := randAmount % 5000 + 500
           due_date := now + randDays % 30
           status := "unpaid" }

/-- `generatePaymentLink` (URL assembly; the consumer numbers and types in
play need no URL escaping). -/
def generatePaymentLink (nowMs : Nat) (bill : Bill) : String :=
  "https://pay.gov.in/citizen?type=" ++ bill.bill_type ++ "&consumer=" ++ bill.consumer_number
    ++ "&amount=" ++ toString bill.amount ++ "&ref=PAY" ++ toString nowMs

/-- JS `replace('_', ' ')`: first occurrence only. -/
def replaceFirstUnderscore : List Char → List Char
  | [] => []
  | c :: cs => if c = '_' then ' ' :: cs else c :: replaceFirstUnderscore cs

/-- JS `toUpperCase` (ASCII). -/
def upperS (s : String) : String := ⟨s.data.map Char.toUpper⟩

/-- The unconditional part of the `formatBillDetails` message. -/
def billBaseText (bill : Bill) : String :=
  "📄 *Bill Details*\n\n"
    ++ "Consumer Number: " ++ bill.consumer_number ++ "\n"
    ++ "Bill Type: " ++ upperS ⟨replaceFirstUnderscore bill.bill_type.data⟩ ++ "\n"
    ++ "Amount: " ++ formatCurrency bill.amount ++ "\n"
    ++ "Due Date: " ++ toString bill.due_date ++ "\n"

/-- The overdue suffix of the `formatBillDetails` message. -/
def billOverdueText (lateFee totalAmount : Nat) : String :=
  "\n⚠️ *Bill is overdue!*\n"
    ++ "Late Fee: " ++ formatCurrency lateFee ++ "\n"
    ++ "Total Payable: " ++ formatCurrency totalAmount

/-- `formatBillDetails`: `isPastDue` is `new Date(due_date) < new Date()`;
the late fee `Math.floor(bill.amount * 0.1)` equals `amount / 10` in
`Nat` (for amounts in the IEEE-exact range the float computation agrees
with exact division). -/
def formatBillDetails (now : Nat) (bill : Bill) : String :=
  let isPastDue := bill.due_date < now
  let lateFee := if isPastDue then bill.amount / 10 else 0
  let totalAmount := bill.amount + lateFee
  let message := "📄 *Bill Details*\n\n"
    ++ "Consumer Number: " ++ bill.consumer_number ++ "\n"
    ++ "Bill Type: " ++ upperS ⟨replaceFirstUnderscore bill.bill_type.data⟩ ++ "\n"
    ++ "Amount: " ++ formatCurrency bill.amount ++ "\n"
    ++ "Due Date: " ++ toString bill.due_date ++ "\n"
  if isPastDue then
    message ++ "\n⚠️ *Bill is overdue!*\n"
      ++ "Late Fee: " ++ formatCurrency lateFee ++ "\n"
      ++ "Total Payable: " ++ formatCurrency totalAmount
  else message

/-! ## services/grievanceService.ts and applicationService.ts (demo reads) -/

/-- `getGrievance` in demo mode: look up the demo store and return `null`
when absent ("show 'not found' instead of fake data"). -/
def demoGetGrievance (demoGrievances : List (String × Grievance))
    (grievance_id : String) : Option Grievance :=
  match storeLookup demoGrievances grievance_id with
  | some demoGrievance => some demoGrievance
  | none => none

/-- The mock application fabricated by `getApplication` in demo mode for
ids not in the demo store (`created_at` is five days before now; the ISO
text is passed in). -/
def mockDemoApplication (application_id : String) (fiveDaysAgoIso : String) : Application :=
  { id := 1
    application_id := application_id
    citizen_id := "demo-citizen"
    type := "certificate"
    subtype := "birth_certificate"
    details := [("applicant_name", "Demo User"),
                ("date_of_birth", "2024-01-15"),
                ("place_of_birth", "City Hospital, Mumbai"),
                ("father_name", "Demo Father"),
                ("mother_name", "Demo Mother")]
    status := "Under Review"
    created_at := some fiveDaysAgoIso }

/-- `getApplication` in demo mode: a stored application if present,
otherwise the fabricated mock — never `null`. -/
def demoGetApplication (demoApplications : List (String × Application))
    (fiveDaysAgoIso : String) (application_id : String) : Option Application :=
  match storeLookup demoApplications application_id with
  | some app => some app
  | none => some (mockDemoApplication application_id fiveDaysAgoIso)

/-! ## services/geminiService.ts -/

/-- Line handling of `parseResponse` in geminiService: split the line at
its first `':'` (`indexOf`), keep the entry when `colonIndex > 0` and
both trimmed halves are non-empty. -/
def geminiLineStep (m : DataMap) (line : String) : DataMap :=
  match firstColonIdx line.data with
  | none => m
  | some colonIndex =>
    if 0 < colonIndex then
      let key := trimS ⟨line.data.take colonIndex⟩
      let value := trimS ⟨line.data.drop (colonIndex + 1)⟩
      if key ≠ "" ∧ value ≠ "" then insertKV m key value else m
    else m

/-- `parseResponse` (geminiService): extract the structured block and
parse its `key: value` lines. -/
def parseResponse (response : String) : String × DataMap :=
  match extractStructured response with
  | some (clean, inner) =>
    (clean, (splitLinesS (trimS inner)).foldl geminiLineStep [])
  | none => (response, [])

/-- `getFollowUpMenu(lang)`. -/
def getFollowUpMenu (lang : String) : String :=
  if lang = "hi" then
    "\n\n---\n🔄 *कुछ और मदद चाहिए?*\n\n📄 बिल भुगतान | 📝 शिकायत | 📋 प्रमाण पत्र | 🏪 लाइसेंस | ℹ️ VMC जानकारी\n\nजो चाहिए वो टाइप करें!"
  else if lang = "hinglish" then
    "\n\n---\n🔄 *Kuch aur help chahiye?*\n\n📄 Bill Payment | 📝 Complaint | 📋 Certificate | 🏪 License | ℹ️ VMC Info\n\nJo chahiye woh type karein!"
  else
    "\n\n---\n🔄 *Need anything else?*\n\n📄 Pay Bills | 📝 File Complaint | 📋 Certificates | 🏪 Licenses | ℹ️ VMC Info\n\nType what you need!"

/-- Language-selection confirmation, English. -/
def langConfirmEn : String :=
  "✅ *Language set to English!*\n\nHow can I help you today?\n\n📄 *Pay Bills* - Property Tax, Water Tax\n📝 *File Complaint* - Roads, Water, Garbage\n📋 *Certificates* - Birth, Income, Caste (Info & Links)\n🏪 *Licenses* - Shop, Trade, Building (Info & Links)\n🔍 *Track Status* - Check your request status\nℹ️ *VMC Info* - Office timings, contacts\n\nType what you need or choose from above!"

/-- Language-selection confirmation, Hindi. -/
def langConfirmHi : String :=
  "✅ *भाषा हिंदी में सेट हो गई!*\n\nमैं आपकी क्या मदद कर सकता/सकती हूं?\n\n📄 *बिल भुगतान* - प्रॉपर्टी टैक्स, पानी टैक्स\n📝 *शिकायत दर्ज करें* - सड़क, पानी, कचरा\n📋 *प्रमाण पत्र* - जन्म, आय, जाति (जानकारी और लिंक)\n🏪 *लाइसेंस* - दुकान, व्यापार, भवन (जानकारी और लिंक)\n🔍 *स्थिति जांचें* - अपनी अर्जी की स्थिति देखें\nℹ️ *VMC जानकारी* - ऑफिस समय, संपर्क\n\nजो चाहिए वो टाइप करें!"

/-- Language-selection confirmation, Hinglish. -/
def langConfirmHinglish : String :=
  "✅ *Language Hinglish mein set ho gayi!*\n\nMain aapki kaise help kar sakta/sakti hoon?\n\n📄 *Bill Payment* - Property Tax, Water Tax\n📝 *Complaint Daalein* - Roads, Pani, Kachra\n📋 *Certificates* - Birth, Income, Caste (Info aur Links)\n🏪 *Licenses* - Dukaan, Trade, Building (Info aur Links)\n🔍 *Status Check* - Apni application ka status dekhein\nℹ️ *VMC Info* - Office timing, contacts\n\nJo chahiye woh type karein!"

/-- The in-flow bill message (`billMsg`) for a matched consumer number. -/
def billCheckingMsg (lang : String) (n : String) : String :=
  if lang = "hi" then "उपभोक्ता नंबर " ++ n ++ " के लिए बिल विवरण जांच रहे हैं..."
  else if lang = "hinglish" then "Consumer Number " ++ n ++ " ka bill check kar rahe hain..."
  else "Checking bill details for Consumer Number: " ++ n ++ "..."

/-- Step-2 reply of the grievance flow (`landmarkMsg`): the location was
just captured, the landmark is requested. -/
def askLandmarkMsg (lang : String) : String :=
  if lang = "hi" then "जी। कृपया नजदीकी लैंडमार्क बताएं?"
  else if lang = "hinglish" then "Ok. Ab nearby Landmark batayein?"
  else "Got it. Please share a **Nearby Landmark**?"

/-- Step-3 reply (`descMsg`): the landmark was just captured, the
description is requested. -/
def askDescriptionMsg (lang : String) : String :=
  if lang = "hi" then "धन्यवाद। कृपया समस्या का विवरण दें (फोटो अगला है)।"
  else if lang = "hinglish" then "Note kar liya. Please problem describe karein (photo next step mein)."
  else "Noted. Please briefly **describe the problem** (You’ll be asked for a photo next)."

/-- Step-4 reply (`photoMsg`): the description was just captured, the
photo is requested. -/
def askPhotoMsg (lang : String) : String :=
  if lang = "hi" then "🛑 **फोटो अनिवार्य है**\n\nकृपया समस्या की फोटो भेजें।"
  else if lang = "hinglish" then "🛑 **Photo Mandatory hai**\n\nPlease issue ka photo bhejein."
  else "🛑 **Photo Required**\n\nPlease attach a **photo** of the issue."

/-- Step-5 reply (the second `photoMsg`): all textual fields are present
but no attachment was seen, so the photo is requested again. -/
def askPhotoStrictMsg (lang : String) : String :=
  if lang = "hi" then "🛑 **फोटो अनिवार्य है**\n\nकृपया समस्या की फोटो भेजें। इसके बिना हम शिकायत दर्ज नहीं कर सकते।"
  else if lang = "hinglish" then "🛑 **Photo Mandatory hai**\n\nPlease issue ka photo bhejein. Uske bina complaint register nahi hogi."
  else "🛑 **Photo Required**\n\nPlease attach a **photo** of the issue.\nWe cannot register the complaint without it."

/-- Completion reply of the grievance flow (`finalMsg`). -/
def grievanceDoneMsg (lang : String) : String :=
  if lang = "hi" then "धन्यवाद। मैंने फोटो प्राप्त कर लिया है। आपकी शिकायत दर्ज की जा रही है..."
  else if lang = "hinglish" then "Thank you. Photo mil gaya. Complaint register ho rahi hai..."
  else "Thank you. I’ve received the photo. Registering your complaint now..."

/-- `baseGrievancePrompt` (the `cat` argument is unused in the source). -/
def baseGrievancePrompt : String :=
  "Please share:\n1. *Area/Ward Name*\n2. *Nearby Landmark*\n3. *Brief Description*\n\n(You will be asked for a photo next)"

/-- In-flow grievance handling of `getDemoResponse` (the branch guarded
by `currentFlow === 'grievance' && collectedData?.category`). -/
def grievanceFlowResponse (userMessage : String) (context : ConversationContext)
    (lang : String) : ChatResponse :=
  let data := context.collectedData
  let category := (dLookup data "category").getD ""
  if truthy (dLookup data "location") = false then
    { message := askLandmarkMsg lang
      structuredData := [("type", "grievance"), ("category", category),
                         ("location", userMessage)] }
  else if truthy (dLookup data "landmark") = false then
    { message := askDescriptionMsg lang
      structuredData := [("type", "grievance"), ("category", category),
                         ("location", (dLookup data "location").getD ""),
                         ("landmark", userMessage)] }
  else if truthy (dLookup data "description") = false then
    { message := askPhotoMsg lang
      structuredData := [("type", "grievance"), ("category", category),
                         ("location", (dLookup data "location").getD ""),
                         ("landmark", (dLookup data "landmark").getD ""),
                         ("description", userMessage)] }
  else if (beginsWith userMessage "[ATTACHMENT:" || slotHasItems context.attachments) = false then
    { message := askPhotoStrictMsg lang
      structuredData := [("type", "grievance"), ("category", category),
                         ("location", (dLookup data "location").getD ""),
                         ("landmark", (dLookup data "landmark").getD ""),
                         ("description", (dLookup data "description").getD "")] }
  else
    { message := grievanceDoneMsg lang
      structuredData := [("type", "grievance"), ("category", category),
                         ("location", (dLookup data "location").getD ""),
                         ("landmark", (dLookup data "landmark").getD ""),
                         ("description", (dLookup data "description").getD "")] }

/-- Keyword-matching tail of `getDemoResponse` (new flows). -/
def keywordResponse (msg : String) (lang : String) : ChatResponse :=
  if includesS msg "bill" ∨ includesS msg "pay" ∨ includesS msg "tax" ∨ includesS msg "bijli"
      ∨ includesS msg "paani" ∨ includesS msg "vera" then
    if includesS msg "electricity" ∨ includesS msg "bijli" then
      { message := "⚡ *Electricity Bill Payment*\n                \nPlease share your *Consumer Number* (found on your bill, usually 10-12 digits)."
        structuredData := [("type", "bill"), ("category", "electricity")] }
    else if includesS msg "water" ∨ includesS msg "paani" then
      { message := "💧 *Water Bill Payment*\n\nPlease share your *Consumer Number* or *Property ID*."
        structuredData := [("type", "bill"), ("category", "water")] }
    else if includesS msg "property" ∨ includesS msg "house" ∨ includesS msg "vera" ∨ includesS msg "tax" then
      { message := "🏠 *Property Tax Payment*\n\nPlease share your *Census Number* or *Property ID* to check pending dues."
        structuredData := [("type", "bill"), ("category", "property_tax")] }
    else
      { message := "💳 *Bill Payment Services*\n\nSelect a bill to pay:\n• ⚡ Electricity Bill\n• 💧 Water Bill  \n• 🏠 Property Tax\n\nUsing official VMC & Provider Gateways."
        structuredData := [] }
  else if includesS msg "complaint" ∨ includesS msg "problem" ∨ includesS msg "issue"
      ∨ includesS msg "grievance" ∨ includesS msg "pothole" ∨ includesS msg "road"
      ∨ includesS msg "garbage" ∨ includesS msg "light" ∨ includesS msg "drain"
      ∨ includesS msg "kharab" ∨ includesS msg "nahi aa raha" then
    if includesS msg "road" ∨ includesS msg "pothole" ∨ includesS msg "sadak" then
      { message := "🛣️ *Road Complaint*\n\n" ++ baseGrievancePrompt
        structuredData := [("type", "grievance"), ("category", "roads")] }
    else if includesS msg "water" ∨ includesS msg "paani" ∨ includesS msg "supply" then
      { message := "💧 *Water Supply Complaint*\n\n" ++ baseGrievancePrompt
        structuredData := [("type", "grievance"), ("category", "water_supply")] }
    else if includesS msg "garbage" ∨ includesS msg "waste" ∨ includesS msg "kachra" then
      { message := "🗑️ *Garbage Complaint*\n\n" ++ baseGrievancePrompt
        structuredData := [("type", "grievance"), ("category", "garbage")] }
    else if includesS msg "light" ∨ includesS msg "street" then
      { message := "💡 *Street Light Complaint*\n\nPlease mention the *Pole Number* if visible.\n\n" ++ baseGrievancePrompt
        structuredData := [("type", "grievance"), ("category", "street_lights")] }
    else if includesS msg "drain" ∨ includesS msg "gutar" ∨ includesS msg "sewer" ∨ includesS msg "overflow" then
      { message := "🌊 *Drainage/Sewerage Complaint*\n\n" ++ baseGrievancePrompt
        structuredData := [("type", "grievance"), ("category", "drainage")] }
    else
      { message := "📝 *File a Complaint*\n\nI can help with:\n• 💧 Water Supply\n• 🛣️ Roads / Potholes\n• 🗑️ Garbage\n• 💡 Street Lights\n• 🌊 Drainage\n• 📌 Other Issues\n\nPlease describe your problem."
        structuredData := [] }
  else if includesS msg "certificate" ∨ includesS msg "birth" ∨ includesS msg "death" ∨ includesS msg "income"
      ∨ includesS msg "caste" ∨ includesS msg "domicile" ∨ includesS msg "praman" then
    if includesS msg "birth" ∨ includesS msg "janam" then
      { message := "👶 *Birth Certificate*\n                \n**Process:**\n1. Apply online (VMC Portal) or at Seva Sadan.\n2. Documents: Discharge summary, Parents’ Aadhaar & Marriage Cert.\n3. Fee: ₹20 approx.\n4. Time: 7-15 days.\n\n🔗 [Apply Here](https://vmc.gov.in)" ++ getFollowUpMenu lang
        structuredData := [] }
    else if includesS msg "death" ∨ includesS msg "mrutyu" then
      { message := "⚰️ *Death Certificate*\n                \n**Process:**\n1. Register death within 21 days (Free). \n2. Apply at Ward Office / Seva Sadan.\n3. Documents: Hospital cause of death, Cremation receipt, ID proof of applicant.\n\n🔗 [VMC Health Dept](https://vmc.gov.in)" ++ getFollowUpMenu lang
        structuredData := [] }
    else if includesS msg "income" ∨ includesS msg "aay" then
      { message := "💰 *Income Certificate* (Revenue Dept)\n                \nApply via **Digital Gujarat Portal**.\n• Doc: Salary slip / IT Return, Ration Card, Aadhaar.\n• Issued by Mamlatdar (not VMC).\n\n🔗 [Digital Gujarat](https://digitalgujarat.gov.in)" ++ getFollowUpMenu lang
        structuredData := [] }
    else if includesS msg "domicile" ∨ includesS msg " रहिवासी" then
      { message := "🏡 *Domicile Certificate*\n                \nProof of residence in Gujarat for 10+ years.\n• Apply: Digital Gujarat Portal / Police Bhavan.\n• Doc: School LC, Ration Card, Electricity Bill (10 yrs), Voter ID.\n\n🔗 [Digital Gujarat](https://digitalgujarat.gov.in)" ++ getFollowUpMenu lang
        structuredData := [] }
    else
      { message := "📋 *Certificate Services*\n\n• 👶 Birth Certificate\n• ⚰️ Death Certificate\n• 💰 Income Certificate\n• 🏡 Domicile Certificate\n• 📜 Caste Certificate\n\nType the name for details."
        structuredData := [] }
  else if includesS msg "license" ∨ includesS msg "permit" ∨ includesS msg "shop" ∨ includesS msg "trade"
      ∨ includesS msg "building" ∨ includesS msg "event" then
    if includesS msg "shop" ∨ includesS msg "gumasta" then
      { message := "🏪 *Shop Act / Gumasta License*\n                \n**New Registration:**\n1. Visit VMC Portal > Shop Establishment.\n2. Upload: Rent Agreement/Ownership, PAN, Aadhaar.\n3. Pay Fee based on employee count.\n\n🔗 [VMC Shop Dept](https://vmc.gov.in)" ++ getFollowUpMenu lang
        structuredData := [] }
    else if includesS msg "event" ∨ includesS msg "party" ∨ includesS msg "plot" then
      { message := "🎉 *Event / Plot Booking*\n                \nFor Community Halls or Party Plots:\n1. Check availability on VMC Portal.\n2. Select date & venue.\n3. Pay deposit & rent online.\n4. Get confirmation receipt.\n\n🔗 [Book Venue](https://vmc.gov.in)" ++ getFollowUpMenu lang
        structuredData := [] }
    else
      { message := "🏪 *Licenses & Permissions*\n\n• Shop Act (Gumasta)\n• Trade License\n• Building Permission\n• Event/Plot Booking\n• Food License (FSSAI)\n\nWhat do you need?"
        structuredData := [] }
  else if includesS msg "status" ∨ includesS msg "track" ∨ includesS msg "application"
      ∨ (findTagDigits ['g', 'r'] msg.data).isSome ∨ (findTagDigits ['a', 'p', 'p'] msg.data).isSome then
    match findTagDigits ['g', 'r'] msg.data with
    | some ds =>
      { message := "🔍 Checking status for Grievance **" ++ ("GR" ++ (⟨ds⟩ : String)) ++ "**..."
        structuredData := [("type", "status_query"), ("grievance_id", "GR" ++ (⟨ds⟩ : String))] }
    | none =>
      match findTagDigits ['a', 'p', 'p'] msg.data with
      | some ds =>
        { message := "🔍 Checking status for Application **" ++ ("APP" ++ (⟨ds⟩ : String)) ++ "**..."
          structuredData := [("type", "status_query"), ("application_id", "APP" ++ (⟨ds⟩ : String))] }
      | none =>
        { message := "🔍 *Track Request*\n\nPlease enter your **Grievance ID** (GRxxxxx) or **Application ID** (APPxxxxx) to check status."
          structuredData := [] }
  else if includesS msg "office" ∨ includesS msg "contact" ∨ includesS msg "time" ∨ includesS msg "help" then
    { message := "🏛️ *VMC Contact Info*\n\n☎️ *Helpline:* 1800-233-0265 (Toll Free)\n📞 *Control Room:* 0265-2423101\n📧 *Email:* info@vmc.gov.in\n\n🕒 *Timings:* 10:30 AM - 6:10 PM (Mon-Sat, excluding holidays)\n📍 *Head Office:* Khanderao Market, Vadodara.\n\nHow can I assist you today?" ++ getFollowUpMenu lang
      structuredData := [] }
  else
    { message := "👋 *Welcome to VMC Citizen Services*\n\nI can help you with:\n1. 💳 *Pay Bills* (Water, Housing, Tax)\n2. 📝 *Register Complaint* (Road, Garbage, Drain)\n3. 📋 *Certificates* (Birth, Death, Income)\n4. 🏪 *Licenses* (Shop, Trade)\n5. 🔍 *Check Status*\n\nPlease type your request (e.g., \"Report a pothole\" or \"Pay water bill\")."
      structuredData := [] }

/-- `getDemoResponse`: the deterministic fallback response generator. -/
def getDemoResponse (userMessage : String) (context : ConversationContext) : ChatResponse :=
  let msg := trimS (lowerS userMessage)
  let lang := if truthy context.language then context.language.getD "en" else "en"
  if truthy context.language = false
      ∧ (msg = "1" ∨ msg = "2" ∨ msg = "3" ∨ includesS msg "english" ∨ includesS msg "hindi"
         ∨ includesS msg "hinglish") then
    if msg = "1" ∨ includesS msg "english" then
      { message := langConfirmEn, structuredData := [("type", "info"), ("language", "en")] }
    else if msg = "2" ∨ includesS msg "hindi" then
      { message := langConfirmHi, structuredData := [("type", "info"), ("language", "hi")] }
    else
      { message := langConfirmHinglish, structuredData := [("type", "info"), ("language", "hinglish")] }
  else if context.currentFlow = some FlowType.bill_payment
      ∧ (findDigitRun userMessage.data).isSome then
    let n : String := ⟨(findDigitRun userMessage.data).getD []⟩
    { message := billCheckingMsg lang n
      structuredData := [("type", "bill"), ("consumer_number", n)] }
  else if context.currentFlow = some FlowType.grievance
      ∧ truthy (dLookup context.collectedData "category") = true then
    grievanceFlowResponse userMessage context lang
  else
    keywordResponse msg lang

/-- `sendToGemini`: on a successful external call the response text is
parsed; on a thrown error (`catch`) the demo response for the same
message and context is returned.  (The `if (!model)` guard in the source
is dead code: `model` is assigned unconditionally at module load.) -/
def sendToGemini (llm : Except String String) (userMessage : String)
    (context : ConversationContext) : ChatResponse :=
  match llm with
  | Except.ok responseText =>
    let p := parseResponse responseText
    { message := p.1, structuredData := p.2 }
  | Except.error _ =>
    let demoResponse := getDemoResponse userMessage context
    { message := demoResponse.message, structuredData := demoResponse.structuredData }

/-! ## services/chatService.ts -/

/-- `getStatusEmoji`. -/
def getStatusEmoji (status : String) : String :=
  let statusLower := lowerS status
  if includesS statusLower "new" ∨ includesS statusLower "pending" then "🔵"
  else if includesS statusLower "progress" ∨ includesS statusLower "review" then "🟡"
  else if includesS statusLower "resolved" ∨ includesS statusLower "approved"
      ∨ includesS statusLower "closed" then "🟢"
  else if includesS statusLower "rejected" then "🔴"
  else "⚪"

/-- `getFlowFromType`: the declared structured-data `type` → flow map. -/
def getFlowFromType (type : String) : FlowType :=
  if type = "grievance" then FlowType.grievance
  else if type = "application" then FlowType.certificate
  else if type = "bill" then FlowType.bill_payment
  else if type = "status_query" then FlowType.status_tracking
  else FlowType.idle

/-- `shouldExecuteAction(data, context)`: the action-execution
precondition; the grievance arm reads
`context?.collectedData?.attachments || []` and checks `.length > 0` —
a slot holding a non-empty *string* (injected by a merged
`"attachments"` key) passes this check with no real attachment. -/
def shouldExecuteAction (data : DataMap) (context : ConversationContext) : Bool :=
  if dLookup data "type" = some "grievance" ∧ truthy (dLookup data "category") = true
      ∧ truthy (dLookup data "description") = true
      ∧ (truthy (dLookup data "area") = true ∨ truthy (dLookup data "location") = true) then
    0 < slotLength (if slotTruthy context.attachments then context.attachments
                    else AttachSlot.list [])
  else if dLookup data "type" = some "status_query"
      ∧ (truthy (dLookup data "grievance_id") = true
         ∨ truthy (dLookup data "application_id") = true) then
    true
  else if dLookup data "type" = some "bill" ∧ truthy (dLookup data "consumer_number") = true then
    true
  else
    false

/-- Result type tag of `ActionResult`. -/
inductive ActionType
  | grievance_created
  | application_created
  | bill_found
  | status_fetched
deriving DecidableEq, Repr

/-- The `data?: Record<string, unknown>` payload of an `ActionResult`. -/
inductive ActionData
  | grievanceId (id : Option String)
  | billPayload (bill : Bill) (details : String) (paymentLink : String)
  | grievanceRecord (g : Grievance)
  | applicationRecord (a : Application)
deriving DecidableEq, Repr

/-- `ActionResult`. -/
structure ActionResult where
  type : ActionType
  success : Bool
  data : Option ActionData
  message : Option String
deriving DecidableEq, Repr

/-- Argument record of `createGrievance` as assembled by
`executeAction` (`attachments` is whatever the slot holds — the code
passes `newContext.collectedData?.attachments` untyped). -/
structure GrievanceInput where
  category : String
  description : String
  location : String
  landmark : Option String
  attachments : AttachSlot
deriving DecidableEq, Repr

/-- Return value of `createGrievance`. -/
structure CreateGrievanceResult where
  success : Bool
  grievance_id : Option String
deriving DecidableEq, Repr

/-- External collaborators of one `processMessage` turn: the grievance /
application / bill services (demo or Supabase) and the ambient clock and
id generator. -/
structure ServiceEnv where
  createGrievance : GrievanceInput → CreateGrievanceResult
  getGrievance : String → Option Grievance
  getApplication : String → Option Application
  getBill : String → Option Bill
  now : Nat
  nowMs : Nat
  freshId : String

/-- The catch-all failure result of `executeAction`. -/
def actionFailure : ActionResult :=
  { type := ActionType.status_fetched, success := false, data := none,
    message := some "Unable to complete action" }

/-- `executeAction`: dispatch on `data.type`; additionally returns the
trace of `createGrievance` calls (the record-creation side effect). -/
def executeAction (env : ServiceEnv) (data : DataMap) (atts : AttachSlot) :
    ActionResult × List GrievanceInput :=
  if dLookup data "type" = some "grievance" then
    let location := jsOr (dLookup data "area") (dLookup data "location")
    if truthy (dLookup data "category") = true ∧ truthy (dLookup data "description") = true
        ∧ truthy location = true then
      let input : GrievanceInput :=
        { category := (dLookup data "category").getD ""
          description := (dLookup data "description").getD ""
          location := location.getD ""
          landmark := dLookup data "landmark"
          attachments := atts }
      let result := env.createGrievance input
      ({ type := ActionType.grievance_created, success := result.success,
         data := some (ActionData.grievanceId result.grievance_id), message := none }, [input])
    else (actionFailure, [])
  else if dLookup data "type" = some "status_query" then
    if truthy (dLookup data "grievance_id") = true then
      match env.getGrievance ((dLookup data "grievance_id").getD "") with
      | some grievance =>
        ({ type := ActionType.status_fetched, success := true,
           data := some (ActionData.grievanceRecord grievance), message := none }, [])
      | none =>
        ({ type := ActionType.status_fetched, success := false, data := none, message := none }, [])
    else if truthy (dLookup data "application_id") = true then
      match env.getApplication ((dLookup data "application_id").getD "") with
      | some application =>
        ({ type := ActionType.status_fetched, success := true,
           data := some (ActionData.applicationRecord application), message := none }, [])
      | none =>
        ({ type := ActionType.status_fetched, success := false, data := none, message := none }, [])
    else (actionFailure, [])
  else if dLookup data "type" = some "bill" then
    if truthy (dLookup data "consumer_number") = true then
      match env.getBill ((dLookup data "consumer_number").getD "") with
      | some bill =>
        ({ type := ActionType.bill_found, success := true,
           data := some (ActionData.billPayload bill (formatBillDetails env.now bill)
             (generatePaymentLink env.nowMs bill)), message := none }, [])
      | none => (actionFailure, [])
    else (actionFailure, [])
  else (actionFailure, [])

/-- Abstract stand-in for `toLocaleDateString('en-IN', ...)`: the locale
rendering of a date plays no role in any claim, so the raw text is kept. -/
def localeDateIN (s : String) : String := s

/-- The confirmation appended to the reply when a grievance was created. -/
def grievanceConfirmText (grievance_id : Option String) : String :=
  "\n\n✅ Complaint Registered!\nYour Grievance ID is: **" ++ renderOpt grievance_id
    ++ "**\n\nWe will update you soon."

/-- The "Request Not Found" substitution message. -/
def requestNotFoundText (id : String) : String :=
  "❌ *Request Not Found*\n\nWe couldn’t find any record with ID: **" ++ id
    ++ "**\n\nPlease check:\n• The ID is correct (e.g., GR12345 or APP12345)\n• You received this ID when filing your request\n\nIf you recently filed a complaint, it may take a few minutes to appear in the system."

/-- The "Bill Not Found" substitution message. -/
def billNotFoundText (consumerNumber : String) : String :=
  "❌ *Bill Not Found*\n\nWe couldn’t find any bill details for Consumer Number: **" ++ consumerNumber
    ++ "**\n\nPlease check:\n• The Consumer Number is correct\n• You have selected the correct service (Property Tax / Water Tax)\n\nTry entering the number again or contact VMC support."

/-- The grievance status card. -/
def grievanceStatusCard (g : Grievance) : String :=
  let statusEmoji := getStatusEmoji g.status
  let createdDate := if truthy g.created_at then localeDateIN (g.created_at.getD "") else "N/A"
  "🔍 *Grievance Status: " ++ g.grievance_id ++ "*\n\n📋 *Category:* "
    ++ (if g.category ≠ "" then g.category else "General")
    ++ (if truthy g.subcategory then " / " ++ g.subcategory.getD "" else "")
    ++ "\n📍 *Location:* " ++ (if g.location ≠ "" then g.location else "Not specified")
    ++ "\n📅 *Filed on:* " ++ createdDate
    ++ "\n\n*Current Status:* " ++ statusEmoji ++ " " ++ g.status ++ "\n"
    ++ (if truthy g.assigned_department then "*Assigned to:* " ++ g.assigned_department.getD "" else "")
    ++ "\n" ++ (if truthy g.notes then "\n*Notes:* " ++ g.notes.getD "" else "")
    ++ "\n\n_Data from VMC database_"

/-- JS `replace(/_/g, ' ')`. -/
def replaceAllUnderscores (s : String) : String :=
  ⟨s.data.map (fun c => if c = '_' then ' ' else c)⟩

/-- The application status card. -/
def applicationStatusCard (a : Application) : String :=
  let statusEmoji := getStatusEmoji a.status
  let createdDate := if truthy a.created_at then localeDateIN (a.created_at.getD "") else "N/A"
  let details := a.details
  "🔍 *Application Status: " ++ a.application_id ++ "*\n\n📋 *Type:* "
    ++ (if replaceAllUnderscores a.subtype ≠ "" then replaceAllUnderscores a.subtype else a.type)
    ++ "\n👤 *Applicant:* "
    ++ (if truthy (dLookup details "applicant_name") then (dLookup details "applicant_name").getD ""
        else "Not specified")
    ++ "\n📅 *Applied on:* " ++ createdDate
    ++ "\n\n*Current Status:* " ++ statusEmoji ++ " " ++ a.status
    ++ "\n\n_Data from VMC database_"

/-- Reply post-processing of `processMessage`: append or substitute the
action outcome into the bot reply. -/
def renderActionContent (base : String) (mergedData : DataMap) (action : ActionResult) : String :=
  if action.success = true ∧ action.data.isSome = true then
    match action.type, action.data with
    | ActionType.bill_found, some (ActionData.billPayload _ details paymentLink) =>
      (base ++ "\n\n" ++ details)
        ++ (if paymentLink ≠ "" then "\n\n[Pay Now](" ++ paymentLink ++ ")" else "")
    | ActionType.grievance_created, some (ActionData.grievanceId gid) =>
      base ++ grievanceConfirmText gid
    | ActionType.status_fetched, some (ActionData.grievanceRecord g) =>
      grievanceStatusCard g
    | ActionType.status_fetched, some (ActionData.applicationRecord a) =>
      applicationStatusCard a
    | _, _ => base
  else if action.success = false then
    if dLookup mergedData "type" = some "status_query" then
      requestNotFoundText (renderOpt (jsOr (dLookup mergedData "grievance_id")
        (dLookup mergedData "application_id")))
    else if dLookup mergedData "type" = some "bill" then
      billNotFoundText (renderOpt (dLookup mergedData "consumer_number"))
    else base
  else base

/-- Attachment-message emoji selection for the rewritten display text. -/
def emojiForAttachment (t : String) : String :=
  if t = "document" then "📄" else if t = "video" then "🎥" else "📷"

/-- `\w` character class. -/
def wordChar (c : Char) : Bool := c.isAlphanum || c == '_'

/-- Parse `url | name ( | size)?` — the `(.*?) \| (.*?)($| \| (.*))`
portion of the attachment regexp (payloads are single-line in practice;
the lazy groups take the text up to the next `" | "`). -/
def parseAttachmentBody (r : List Char) : Option (String × String × String) :=
  match findSub [' ', '|', ' '] r with
  | none => none
  | some i =>
    let url := r.take i
    let rest := r.drop (i + 3)
    match findSub [' ', '|', ' '] rest with
    | none => some (⟨url⟩, ⟨rest⟩, "")
    | some j => some (⟨url⟩, ⟨rest.take j⟩, ⟨rest.drop (j + 3)⟩)

/-- Try the attachment regexp `\[ATTACHMENT: (\w+)\] ...` at this exact
position. -/
def attachAt (l : List Char) : Option (String × String × String × String) :=
  if leadsWith "[ATTACHMENT: ".data l then
    let afterTag := l.drop 13
    let typeRun := afterTag.takeWhile wordChar
    let rest := afterTag.drop typeRun.length
    if typeRun ≠ [] ∧ leadsWith [']', ' '] rest then
      match parseAttachmentBody (rest.drop 2) with
      | some (u, n, s) => some (⟨typeRun⟩, u, n, s)
      | none => none
    else none
  else none

/-- Leftmost match of the attachment regexp. -/
def attachFind : List Char → Option (String × String × String × String)
  | [] => none
  | c :: cs =>
    match attachAt (c :: cs) with
    | some r => some r
    | none => attachFind cs

/-- The `[ATTACHMENT: ...]` detection of `processMessage`: guarded by
`startsWith('[ATTACHMENT:')`, then matched by the regexp.  Returns the
raw `(type, url, name, size)` when matched. -/
def attachmentOfMessage (userMessage : String) : Option (String × String × String × String) :=
  if beginsWith userMessage "[ATTACHMENT:" then attachFind userMessage.data else none

/-- `cleanUserMessage`: the display rewrite of an attachment message. -/
def cleanUserMessage (userMessage : String) : String :=
  match attachmentOfMessage userMessage with
  | some (t, _, n, _) => emojiForAttachment t ++ " Sent " ++ t ++ ": " ++ n
  | none => userMessage

/-- The generator response of this turn (`sendToGemini` on the cleaned
message and the incoming context). -/
def turnResponse (llm : Except String String) (userMessage : String)
    (context : ConversationContext) : ChatResponse :=
  sendToGemini llm (cleanUserMessage userMessage) context

/-- This turn's `parseStructuredData` result on the response message. -/
def turnParsed (llm : Except String String) (userMessage : String)
    (context : ConversationContext) : String × DataMap :=
  parseStructuredData (turnResponse llm userMessage context).message

/-- `mergedData = {...response.structuredData, ...structuredData}`. -/
def turnMergedData (llm : Except String String) (userMessage : String)
    (context : ConversationContext) : DataMap :=
  mergeMaps (turnResponse llm userMessage context).structuredData
    (turnParsed llm userMessage context).2

/-- `finalMessage = cleanMessage || response.message`. -/
def turnFinalMessage (llm : Except String String) (userMessage : String)
    (context : ConversationContext) : String :=
  if (turnParsed llm userMessage context).1 = "" then (turnResponse llm userMessage context).message
  else (turnParsed llm userMessage context).1

/-- The updated context of this turn: merge the structured data into
`collectedData` (`{...context.collectedData, ...mergedData}` — a merged
`"attachments"` key overwrites the attachments slot with its string
value), then append a parsed attachment to
`newContext.collectedData?.attachments || []` (spreading a string slot
into its characters), and overwrite `currentFlow` from a declared
`type` and `language` from a declared `language`. -/
def turnNewContext (env : ServiceEnv) (llm : Except String String) (userMessage : String)
    (context : ConversationContext) : ConversationContext :=
  let mergedData := turnMergedData llm userMessage context
  let slotAfterMerge :=
    match dLookup mergedData "attachments" with
    | some v => AttachSlot.str v
    | none => context.attachments
  { currentFlow :=
      if truthy (dLookup mergedData "type") then
        some (getFlowFromType ((dLookup mergedData "type").getD ""))
      else context.currentFlow
    collectedData := mergeMaps context.collectedData (stripAttachmentsKey mergedData)
    attachments :=
      match attachmentOfMessage userMessage with
      | some (t, u, n, s) =>
        let existingAttachments :=
          if slotTruthy slotAfterMerge then slotAfterMerge else AttachSlot.list []
        AttachSlot.list (spreadSlot existingAttachments
          ++ [AttachEntry.att { id := env.freshId, type := t, url := u, name := n, size := s }])
      | none => slotAfterMerge
    language :=
      if truthy (dLookup mergedData "language") then dLookup mergedData "language"
      else context.language }

/-- Return value of `processMessage` (the bot message is kept as its
content string); `grievanceCalls` is the trace of `createGrievance`
invocations performed by the action executor during this turn. -/
structure ProcessResult where
  botMessage : String
  newContext : ConversationContext
  action : Option ActionResult
  grievanceCalls : List GrievanceInput
deriving DecidableEq, Repr

/-- `processMessage`: one full conversation turn. -/
def processMessage (env : ServiceEnv) (llm : Except String String) (userMessage : String)
    (context : ConversationContext) : ProcessResult :=
  let mergedData := turnMergedData llm userMessage context
  let newContext := turnNewContext env llm userMessage context
  let finalMessage := turnFinalMessage llm userMessage context
  if shouldExecuteAction mergedData newContext then
    let r := executeAction env mergedData newContext.attachments
    { botMessage := renderActionContent finalMessage mergedData r.1
      newContext := newContext
      action := some r.1
      grievanceCalls := r.2 }
  else
    { botMessage := finalMessage, newContext := newContext, action := none, grievanceCalls := [] }

/-! ## Auxiliary definitions for the claims -/

/-- The data lines both parsers iterate over for a given response. -/
def dataLinesOf (response : String) : List String :=
  match extractStructured response with
  | some (_, inner) => splitLinesS (trimS inner)
  | none => []

/-- A data line on which the two parsers agree: no colon, a leading
colon, or non-empty trimmed key and value. -/
def lineOk (line : String) : Bool :=
  match firstColonIdx line.data with
  | none => true
  | some i =>
    if 0 < i then
      decide (trimS ⟨line.data.take i⟩ ≠ "") && decide (trimS ⟨line.data.drop (i + 1)⟩ ≠ "")
    else true

/-! ### Concrete fixtures used by witnesses and counterexamples -/

/-- A sample attachment. -/
def attW : Attachment :=
  { id := "a1", type := "image", url := "data:image/png;base64,AAA", name := "pothole.jpg",
    size := "34.5" }

/-- A demo-mode service environment: empty grievance and application demo
stores, the demo bill store, fixed clock and random draws. -/
def envW : ServiceEnv :=
  { createGrievance := fun _ => { success := true, grievance_id := some "GR00001" }
    getGrievance := demoGetGrievance []
    getApplication := demoGetApplication [] "2025-01-01T00:00:00.000Z"
    getBill := getBill demoBills 20260000 1500 0 3
    now := 20260000
    nowMs := 1700000000000
    freshId := "msg_demo_1" }

/-- A grievance-flow context holding every textual field and one
attachment (a completed grievance session). -/
def ctxFullW : ConversationContext :=
  { currentFlow := some FlowType.grievance
    collectedData := [("type", "grievance"), ("category", "roads"), ("location", "Ward 5"),
                      ("landmark", "SBI"), ("description", "Pothole")]
    attachments := AttachSlot.list [AttachEntry.att attW]
    language := some "en" }

/-- A grievance-flow context with only the category collected. -/
def ctxCatW : ConversationContext :=
  { currentFlow := some FlowType.grievance
    collectedData := [("category", "roads")]
    attachments := AttachSlot.undef
    language := some "en" }

/-- A grievance-flow context whose textual fields stop at the landmark
but which already holds an attachment. -/
def ctxEarlyAttW : ConversationContext :=
  { currentFlow := some FlowType.grievance
    collectedData := [("category", "roads"), ("location", "Ward 5"), ("landmark", "Near SBI")]
    attachments := AttachSlot.list [AttachEntry.att attW]
    language := some "en" }

/-- An idle context with a selected language. -/
def ctxIdleW : ConversationContext :=
  { currentFlow := none, collectedData := [], attachments := AttachSlot.undef,
    language := some "en" }

/-- A grievance-flow context with an attachment and no collected fields. -/
def ctxAttOnlyW : ConversationContext :=
  { currentFlow := some FlowType.grievance, collectedData := [],
    attachments := AttachSlot.list [AttachEntry.att attW], language := some "en" }

/-- A generator outcome declaring a complete grievance. -/
def llmGrievW : Except String String :=
  Except.ok "Done[STRUCTURED_DATA]\ntype: grievance\ncategory: roads\ndescription: Pothole\nlocation: Ward 5\n[/STRUCTURED_DATA]"

/-- A generator outcome declaring a complete grievance *and* injecting a
string under the `attachments` key of the structured block. -/
def llmInjectW : Except String String :=
  Except.ok "Done[STRUCTURED_DATA]\ntype: grievance\ncategory: roads\ndescription: Pothole\nlocation: Ward 5\nattachments: x\n[/STRUCTURED_DATA]"

/-- A generator outcome whose structured block holds only an
`attachments` line. -/
def llmClobberW : Except String String :=
  Except.ok "Noted[STRUCTURED_DATA]\nattachments: x\n[/STRUCTURED_DATA]"

/-- A generator outcome declaring a status query for an unknown
grievance id. -/
def llmStatusGrW : Except String String :=
  Except.ok "Checking...[STRUCTURED_DATA]\ntype: status_query\ngrievance_id: GR99999\n[/STRUCTURED_DATA]"

/-- A generator outcome declaring a status query for an unknown
application id. -/
def llmStatusAppW : Except String String :=
  Except.ok "Checking...[STRUCTURED_DATA]\ntype: status_query\napplication_id: APP99999\n[/STRUCTURED_DATA]"

/-- A generator outcome declaring a bill query. -/
def llmBillW : Except String String :=
  Except.ok "Looking up...[STRUCTURED_DATA]\ntype: bill\nconsumer_number: 0000011111\n[/STRUCTURED_DATA]"

/-- The sample overdue bill with an amount that is not a multiple of 10. -/
def bill2455 : Bill :=
  { id := 1, consumer_number := "1234567890", bill_type := "electricity", amount := 2455,
    due_date := 20241231, status := "unpaid" }

/-! ### Map lemmas (theorem section) -/

theorem dLookup_insertKV_self (m : DataMap) (k v : String) :
    dLookup (insertKV m k v) k = some v := by
  induction m with
  | nil => simp [insertKV, dLookup]
  | cons h t ih =>
    by_cases hk : h.1 = k
    · simp [insertKV, hk, dLookup]
    · simp [insertKV, hk, dLookup, ih]

theorem dLookup_insertKV_ne (m : DataMap) (k v : String) (k' : String)
    (h : k ≠ k') : dLookup (insertKV m k v) k' = dLookup m k' := by
  induction m with
  | nil => simp [insertKV, dLookup, h]
  | cons hd t ih =>
    by_cases hk : hd.1 = k
    · simp [insertKV, hk, dLookup, h]
    · by_cases hk' : hd.1 = k'
      · simp [insertKV, hk, dLookup, hk', Ne.symm h]
      · simp [insertKV, hk, dLookup, hk', ih]

theorem insertKV_eq_of_dLookup (m : DataMap) (k v : String)
    (h : dLookup m k = some v) : insertKV m k v = m := by
  induction m with
  | nil => simp [dLookup] at h
  | cons hd t ih =>
    obtain ⟨k1, v1⟩ := hd
    by_cases hk : k1 = k
    · simp only [dLookup, if_pos hk] at h
      cases h
      simp [insertKV, hk]
    · simp only [dLookup, if_neg hk] at h
      simp [insertKV, hk, ih h]

theorem isSome_dLookup_insertKV (m : DataMap) (k v k' : String)
    (h : (dLookup m k').isSome) : (dLookup (insertKV m k v) k').isSome := by
  by_cases hk : k = k'
  · subst hk; simp [dLookup_insertKV_self]
  · rwa [dLookup_insertKV_ne m k v k' hk]

theorem dLookup_mergeMaps_of_absent (old new : DataMap) (k : String)
    (h : dLookup new k = none) :
    dLookup (mergeMaps old new) k = dLookup old k := by
  induction new generalizing old with
  | nil => simp [mergeMaps]
  | cons hd t ih =>
    have hne : hd.1 ≠ k := by
      intro he
      simp [dLookup, he] at h
    have ht : dLookup t k = none := by
      simpa [dLookup, hne] using h
    have : mergeMaps old (hd :: t) = mergeMaps (insertKV old hd.1 hd.2) t := by
      simp [mergeMaps]
    rw [this, ih _ ht, dLookup_insertKV_ne _ _ _ _ hne]

theorem isSome_dLookup_mergeMaps (old new : DataMap) (k : String)
    (h : (dLookup old k).isSome) :
    (dLookup (mergeMaps old new) k).isSome := by
  induction new generalizing old with
  | nil => simpa [mergeMaps]
  | cons hd t ih =>
    have : mergeMaps old (hd :: t) = mergeMaps (insertKV old hd.1 hd.2) t := by
      simp [mergeMaps]
    rw [this]
    exact ih _ (isSome_dLookup_insertKV _ _ _ _ h)

theorem mergeMaps_eq_of_contained (old new : DataMap)
    (h : ∀ p ∈ new, dLookup old p.1 = some p.2) : mergeMaps old new = old := by
  induction new generalizing old with
  | nil => simp [mergeMaps]
  | cons hd t ih =>
    have h1 : dLookup old hd.1 = some hd.2 := h hd (by simp)
    have : mergeMaps old (hd :: t) = mergeMaps (insertKV old hd.1 hd.2) t := by
      simp [mergeMaps]
    rw [this, insertKV_eq_of_dLookup _ _ _ h1]
    exact ih old (fun p hp => h p (by simp [hp]))

theorem mergeMaps_cons (old : DataMap) (k v : String) (t : DataMap) :
    mergeMaps old ((k, v) :: t) = mergeMaps (insertKV old k v) t := by
  simp [mergeMaps]

theorem mergeMaps_nil (old : DataMap) : mergeMaps old [] = old := rfl

theorem truthy_iff (o : Option String) :
    truthy o = true ↔ ∃ v, o = some v ∧ v ≠ "" := by
  cases o <;> simp [truthy]

theorem truthy_jsOr (a b : Option String) :
    truthy (jsOr a b) = (truthy a || truthy b) := by
  cases ha : truthy a <;> simp [jsOr, ha]

/-! ### Structural lemmas about `processMessage` and `executeAction` -/

theorem processMessage_pos (env : ServiceEnv) (llm : Except String String) (um : String)
    (ctx : ConversationContext)
    (h : shouldExecuteAction (turnMergedData llm um ctx) (turnNewContext env llm um ctx) = true) :
    processMessage env llm um ctx =
      { botMessage := renderActionContent (turnFinalMessage llm um ctx) (turnMergedData llm um ctx)
          (executeAction env (turnMergedData llm um ctx) (turnNewContext env llm um ctx).attachments).1
        newContext := turnNewContext env llm um ctx
        action := some (executeAction env (turnMergedData llm um ctx)
          (turnNewContext env llm um ctx).attachments).1
        grievanceCalls := (executeAction env (turnMergedData llm um ctx)
          (turnNewContext env llm um ctx).attachments).2 } := by
  simp [processMessage, h]

theorem processMessage_neg (env : ServiceEnv) (llm : Except String String) (um : String)
    (ctx : ConversationContext)
    (h : shouldExecuteAction (turnMergedData llm um ctx) (turnNewContext env llm um ctx) = false) :
    processMessage env llm um ctx =
      { botMessage := turnFinalMessage llm um ctx
        newContext := turnNewContext env llm um ctx
        action := none
        grievanceCalls := [] } := by
  simp [processMessage, h]

theorem processMessage_newContext (env : ServiceEnv) (llm : Except String String) (um : String)
    (ctx : ConversationContext) :
    (processMessage env llm um ctx).newContext = turnNewContext env llm um ctx := by
  cases h : shouldExecuteAction (turnMergedData llm um ctx) (turnNewContext env llm um ctx)
  · rw [processMessage_neg env llm um ctx h]
  · rw [processMessage_pos env llm um ctx h]

theorem processMessage_action_some (env : ServiceEnv) (llm : Except String String) (um : String)
    (ctx : ConversationContext) (a : ActionResult)
    (ha : (processMessage env llm um ctx).action = some a) :
    shouldExecuteAction (turnMergedData llm um ctx) (turnNewContext env llm um ctx) = true
    ∧ a = (executeAction env (turnMergedData llm um ctx)
        (turnNewContext env llm um ctx).attachments).1
    ∧ (processMessage env llm um ctx).botMessage
        = renderActionContent (turnFinalMessage llm um ctx) (turnMergedData llm um ctx) a := by
  cases h : shouldExecuteAction (turnMergedData llm um ctx) (turnNewContext env llm um ctx)
  · rw [processMessage_neg env llm um ctx h] at ha
    exact absurd ha (by simp)
  · rw [processMessage_pos env llm um ctx h] at ha
    have haa := Option.some.inj ha
    refine ⟨rfl, haa.symm, ?_⟩
    rw [processMessage_pos env llm um ctx h, ← haa]

theorem executeAction_grievance_created (env : ServiceEnv) (data : DataMap)
    (atts : AttachSlot)
    (ht : (executeAction env data atts).1.type = ActionType.grievance_created) :
    dLookup data "type" = some "grievance"
    ∧ truthy (dLookup data "category") = true
    ∧ truthy (dLookup data "description") = true
    ∧ (truthy (dLookup data "area") = true ∨ truthy (dLookup data "location") = true)
    ∧ ∃ gid, (executeAction env data atts).1.data = some (ActionData.grievanceId gid) := by
  by_cases h1 : dLookup data "type" = some "grievance"
  · by_cases h2 : truthy (dLookup data "category") = true
        ∧ truthy (dLookup data "description") = true
        ∧ truthy (jsOr (dLookup data "area") (dLookup data "location")) = true
    · obtain ⟨h2a, h2b, h2c⟩ := h2
      have hor : truthy (dLookup data "area") = true ∨ truthy (dLookup data "location") = true := by
        have := truthy_jsOr (dLookup data "area") (dLookup data "location")
        rw [h2c] at this
        rcases Bool.or_eq_true_iff.mp this.symm with h | h
        · exact Or.inl h
        · exact Or.inr h
      refine ⟨h1, h2a, h2b, hor, ?_⟩
      simp [executeAction, h1, h2a, h2b, h2c]
    · simp [executeAction, h1, h2, actionFailure] at ht
  · by_cases h2 : dLookup data "type" = some "status_query"
    · by_cases h3 : truthy (dLookup data "grievance_id") = true
      · cases hg : env.getGrievance ((dLookup data "grievance_id").getD "") <;>
          simp [executeAction, h1, h2, h3, hg] at ht
      · by_cases h4 : truthy (dLookup data "application_id") = true
        · cases hap : env.getApplication ((dLookup data "application_id").getD "") <;>
            simp [executeAction, h1, h2, h3, h4, hap] at ht
        · simp [executeAction, h1, h2, h3, h4, actionFailure] at ht
    · by_cases h5 : dLookup data "type" = some "bill"
      · by_cases h6 : truthy (dLookup data "consumer_number") = true
        · cases hb : env.getBill ((dLookup data "consumer_number").getD "") <;>
            simp [executeAction, h1, h2, h5, h6, hb, actionFailure] at ht
        · simp [executeAction, h1, h2, h5, h6, actionFailure] at ht
      · simp [executeAction, h1, h2, h5, actionFailure] at ht

theorem executeAction_calls_le_one (env : ServiceEnv) (data : DataMap)
    (atts : AttachSlot) : (executeAction env data atts).2.length ≤ 1 := by
  by_cases h1 : dLookup data "type" = some "grievance"
  · by_cases h2 : truthy (dLookup data "category") = true
        ∧ truthy (dLookup data "description") = true
        ∧ truthy (jsOr (dLookup data "area") (dLookup data "location")) = true
    · obtain ⟨h2a, h2b, h2c⟩ := h2
      simp [executeAction, h1, h2a, h2b, h2c]
    · simp [executeAction, h1, h2]
  · by_cases h2 : dLookup data "type" = some "status_query"
    · by_cases h3 : truthy (dLookup data "grievance_id") = true
      · cases hg : env.getGrievance ((dLookup data "grievance_id").getD "") <;>
          simp [executeAction, h1, h2, h3, hg]
      · by_cases h4 : truthy (dLookup data "application_id") = true
        · cases hap : env.getApplication ((dLookup data "application_id").getD "") <;>
            simp [executeAction, h1, h2, h3, h4, hap]
        · simp [executeAction, h1, h2, h3, h4]
    · by_cases h5 : dLookup data "type" = some "bill"
      · by_cases h6 : truthy (dLookup data "consumer_number") = true
        · cases hb : env.getBill ((dLookup data "consumer_number").getD "") <;>
            simp [executeAction, h1, h2, h5, h6, hb]
        · simp [executeAction, h1, h2, h5, h6]
      · simp [executeAction, h1, h2, h5]

theorem shouldExecuteAction_grievance_attachments (data : DataMap) (ctx : ConversationContext)
    (h : shouldExecuteAction data ctx = true)
    (ht : dLookup data "type" = some "grievance") :
    0 < slotLength (if slotTruthy ctx.attachments then ctx.attachments
                    else AttachSlot.list []) := by
  by_cases h1 : dLookup data "type" = some "grievance" ∧ truthy (dLookup data "category") = true
      ∧ truthy (dLookup data "description") = true
      ∧ (truthy (dLookup data "area") = true ∨ truthy (dLookup data "location") = true)
  · unfold shouldExecuteAction at h
    rw [if_pos h1] at h
    exact_mod_cast of_decide_eq_true h
  · have h2 : ¬(dLookup data "type" = some "status_query"
        ∧ (truthy (dLookup data "grievance_id") = true
           ∨ truthy (dLookup data "application_id") = true)) := by
      rintro ⟨h2a, -⟩
      rw [ht] at h2a
      simp at h2a
    have h3 : ¬(dLookup data "type" = some "bill"
        ∧ truthy (dLookup data "consumer_number") = true) := by
      rintro ⟨h3a, -⟩
      rw [ht] at h3a
      simp at h3a
    unfold shouldExecuteAction at h
    rw [if_neg h1, if_neg h2, if_neg h3] at h
    exact absurd h (by simp)

theorem shouldExecuteAction_bill_consumer (data : DataMap) (ctx : ConversationContext)
    (h : shouldExecuteAction data ctx = true)
    (ht : dLookup data "type" = some "bill") :
    truthy (dLookup data "consumer_number") = true := by
  have h1 : ¬(dLookup data "type" = some "grievance" ∧ truthy (dLookup data "category") = true
      ∧ truthy (dLookup data "description") = true
      ∧ (truthy (dLookup data "area") = true ∨ truthy (dLookup data "location") = true)) := by
    rintro ⟨h1a, -⟩
    rw [ht] at h1a
    simp at h1a
  have h2 : ¬(dLookup data "type" = some "status_query"
      ∧ (truthy (dLookup data "grievance_id") = true
         ∨ truthy (dLookup data "application_id") = true)) := by
    rintro ⟨h2a, -⟩
    rw [ht] at h2a
    simp at h2a
  by_cases h3 : truthy (dLookup data "consumer_number") = true
  · exact h3
  · unfold shouldExecuteAction at h
    rw [if_neg h1, if_neg h2, if_neg (by rintro ⟨-, h3b⟩; exact h3 h3b)] at h
    exact absurd h (by simp)

theorem shouldExecuteAction_status_query (data : DataMap) (ctx : ConversationContext)
    (ht : dLookup data "type" = some "status_query")
    (hid : truthy (dLookup data "grievance_id") = true
      ∨ truthy (dLookup data "application_id") = true) :
    shouldExecuteAction data ctx = true := by
  have h1 : ¬(dLookup data "type" = some "grievance" ∧ truthy (dLookup data "category") = true
      ∧ truthy (dLookup data "description") = true
      ∧ (truthy (dLookup data "area") = true ∨ truthy (dLookup data "location") = true)) := by
    rintro ⟨h1a, -⟩
    rw [ht] at h1a
    simp at h1a
  unfold shouldExecuteAction
  rw [if_neg h1, if_pos ⟨ht, hid⟩]

/-! ### Lemmas about the attachments slot of the updated context -/

theorem dLookup_strip_none (m : DataMap) (k : String) (h : dLookup m k = none) :
    dLookup (stripAttachmentsKey m) k = none := by
  induction m with
  | nil => rfl
  | cons hd t ih =>
    obtain ⟨k1, v1⟩ := hd
    by_cases hk : k1 = k
    · simp [dLookup, hk] at h
    · simp only [dLookup, if_neg hk] at h
      unfold stripAttachmentsKey at ih ⊢
      rw [List.filter_cons]
      by_cases hka : k1 = "attachments"
      · rw [if_neg (by simp [hka])]
        exact ih h
      · rw [if_pos (by simp [hka])]
        simp only [dLookup, if_neg hk]
        exact ih h

theorem turnNewContext_str_source (env : ServiceEnv) (llm : Except String String) (um : String)
    (ctx : ConversationContext) (s : String)
    (h : (turnNewContext env llm um ctx).attachments = AttachSlot.str s) :
    dLookup (turnMergedData llm um ctx) "attachments" = some s
    ∨ ctx.attachments = AttachSlot.str s := by
  rcases ham : attachmentOfMessage um with _ | ⟨t, u, n, sz⟩
  · rcases hmk : dLookup (turnMergedData llm um ctx) "attachments" with _ | v
    · right
      have he : (turnNewContext env llm um ctx).attachments = ctx.attachments := by
        simp [turnNewContext, ham, hmk]
      rw [← he]
      exact h
    · left
      have he : (turnNewContext env llm um ctx).attachments = AttachSlot.str v := by
        simp [turnNewContext, ham, hmk]
      rw [he] at h
      injection h with hv
      subst hv
      rfl
  · exfalso
    have he : ∃ L, (turnNewContext env llm um ctx).attachments = AttachSlot.list L := by
      simp [turnNewContext, ham]
    obtain ⟨L, hL⟩ := he
    rw [hL] at h
    cases h

theorem turnNewContext_list_growth (env : ServiceEnv) (llm : Except String String) (um : String)
    (ctx : ConversationContext) (l : List AttachEntry)
    (hmk : dLookup (turnMergedData llm um ctx) "attachments" = none)
    (hl : ctx.attachments = AttachSlot.list l) :
    ∃ added, (turnNewContext env llm um ctx).attachments = AttachSlot.list (l ++ added) := by
  rcases ham : attachmentOfMessage um with _ | ⟨t, u, n, sz⟩
  · exact ⟨[], by simp [turnNewContext, ham, hmk, hl]⟩
  · refine ⟨[AttachEntry.att { id := env.freshId, type := t, url := u, name := n, size := sz }], ?_⟩
    simp [turnNewContext, ham, hmk, hl, slotTruthy, spreadSlot]

theorem turnNewContext_clobber (env : ServiceEnv) (llm : Except String String) (um : String)
    (ctx : ConversationContext) (v : String)
    (hmk : dLookup (turnMergedData llm um ctx) "attachments" = some v)
    (ham : attachmentOfMessage um = none) :
    (turnNewContext env llm um ctx).attachments = AttachSlot.str v := by
  simp [turnNewContext, ham, hmk]

/-! ### Lemmas about the two line parsers (C9) -/

theorem splitOnCharC_ne_nil (sep : Char) (l : List Char) : splitOnCharC sep l ≠ [] := by
  induction l with
  | nil => simp [splitOnCharC]
  | cons c cs ih =>
    unfold splitOnCharC
    by_cases hc : c == sep
    · simp [hc]
    · rcases hr : splitOnCharC sep cs with _ | ⟨h, t⟩
      · exact absurd hr ih
      · simp [hc, hr]

theorem data_append (a b : String) : (a ++ b).data = a.data ++ b.data := rfl

theorem joinColon_cons_ne (x : String) (xs : List String) (h : xs ≠ []) :
    joinColon (x :: xs) = x ++ ":" ++ joinColon xs := by
  cases xs with
  | nil => exact absurd rfl h
  | cons y ys => rfl

theorem splitOnCharC_no_colon (l : List Char) (h : firstColonIdx l = none) :
    splitOnCharC ':' l = [l] := by
  induction l with
  | nil => rfl
  | cons c cs ih =>
    by_cases hc : c == ':'
    · simp [firstColonIdx, hc] at h
    · have h' : firstColonIdx cs = none := by
        rcases hfc : firstColonIdx cs with _ | i
        · rfl
        · simp [firstColonIdx, hc, hfc] at h
      unfold splitOnCharC
      rw [ih h']
      simp [hc]

theorem splitOnCharC_cons (sep c : Char) (cs : List Char) :
    splitOnCharC sep (c :: cs) =
      if c == sep then [] :: splitOnCharC sep cs
      else
        match splitOnCharC sep cs with
        | h :: t => (c :: h) :: t
        | [] => [[c]] := rfl

theorem splitOnCharC_colon (l : List Char) (i : Nat) (h : firstColonIdx l = some i) :
    splitOnCharC ':' l = l.take i :: splitOnCharC ':' (l.drop (i + 1)) := by
  induction l generalizing i with
  | nil => simp [firstColonIdx] at h
  | cons c cs ih =>
    by_cases hc : c == ':'
    · have hi : i = 0 := by
        simp [firstColonIdx, hc] at h
        omega
      subst hi
      rw [splitOnCharC_cons, if_pos hc]
      simp
    · have hstep : ∃ j, firstColonIdx cs = some j ∧ i = j + 1 := by
        rcases hfc : firstColonIdx cs with _ | j
        · simp [firstColonIdx, hc, hfc] at h
        · simp [firstColonIdx, hc, hfc] at h
          exact ⟨j, rfl, h.symm⟩
      obtain ⟨j, hj, rfl⟩ := hstep
      rw [splitOnCharC_cons, if_neg hc, ih j hj]
      simp

theorem joinColon_head_cons (c : Char) (hd : List Char) (t : List (List Char)) :
    joinColon (((c :: hd) :: t).map (fun x => (⟨x⟩ : String)))
      = ⟨c :: (joinColon ((hd :: t).map (fun x => (⟨x⟩ : String)))).data⟩ := by
  cases t with
  | nil => rfl
  | cons y ys =>
    have hne : (y :: ys).map (fun x => (⟨x⟩ : String)) ≠ [] := by simp
    have h1 : joinColon (((c :: hd) :: y :: ys).map (fun x => (⟨x⟩ : String)))
        = (⟨c :: hd⟩ : String) ++ ":" ++ joinColon ((y :: ys).map (fun x => (⟨x⟩ : String))) := by
      rw [List.map_cons]
      exact joinColon_cons_ne _ _ hne
    have h2 : joinColon ((hd :: y :: ys).map (fun x => (⟨x⟩ : String)))
        = (⟨hd⟩ : String) ++ ":" ++ joinColon ((y :: ys).map (fun x => (⟨x⟩ : String))) := by
      rw [List.map_cons]
      exact joinColon_cons_ne _ _ hne
    rw [h1, h2]
    apply String.ext
    simp [data_append]

theorem joinColon_splitOnCharC (l : List Char) :
    joinColon ((splitOnCharC ':' l).map (fun x => (⟨x⟩ : String))) = ⟨l⟩ := by
  induction l with
  | nil => rfl
  | cons c cs ih =>
    by_cases hc : c == ':'
    · have hc' : c = ':' := by simpa using hc
      have hrest : (splitOnCharC ':' cs).map (fun x => (⟨x⟩ : String)) ≠ [] := by
        simp [splitOnCharC_ne_nil]
      rw [splitOnCharC_cons, if_pos hc]
      rw [List.map_cons, joinColon_cons_ne _ _ hrest, ih]
      apply String.ext
      simp [data_append, hc']
    · rcases hr : splitOnCharC ':' cs with _ | ⟨hd, t⟩
      · exact absurd hr (splitOnCharC_ne_nil ':' cs)
      · rw [splitOnCharC_cons, if_neg hc, hr]
        rw [hr] at ih
        rw [joinColon_head_cons, ih]

theorem lineStep_eq (line : String) (h : lineOk line = true) (m : DataMap) :
    geminiLineStep m line = helpersLineStep m line := by
  rcases hci : firstColonIdx line.data with _ | i
  · have hsplit : splitColonS line = [line] := by
      unfold splitColonS
      rw [splitOnCharC_no_colon line.data hci]
      rfl
    simp [geminiLineStep, helpersLineStep, hci, hsplit]
  · have hsplit : splitColonS line
        = (⟨line.data.take i⟩ : String) :: (splitOnCharC ':' (line.data.drop (i + 1))).map (fun x => (⟨x⟩ : String)) := by
      unfold splitColonS
      rw [splitOnCharC_colon line.data i hci]
      rfl
    by_cases hi : 0 < i
    · have hdata_ne : line.data ≠ [] := by
        intro he
        rw [he] at hci
        simp [firstColonIdx] at hci
      have hkey_ne : (⟨line.data.take i⟩ : String) ≠ "" := by
        intro he
        have : line.data.take i = [] := by simpa using congrArg String.data he
        rcases List.take_eq_nil_iff.mp this with h' | h'
        · omega
        · exact hdata_ne h'
      have hparts_ne : (splitOnCharC ':' (line.data.drop (i + 1))).map (fun x => (⟨x⟩ : String)) ≠ [] := by
        simp [splitOnCharC_ne_nil]
      have hok : trimS ⟨line.data.take i⟩ ≠ "" ∧ trimS ⟨line.data.drop (i + 1)⟩ ≠ "" := by
        simp only [lineOk, hci] at h
        rw [if_pos hi] at h
        simpa [Bool.and_eq_true, decide_eq_true_eq] using h
      have hjoin : joinColon ((splitOnCharC ':' (line.data.drop (i + 1))).map (fun x => (⟨x⟩ : String)))
          = ⟨line.data.drop (i + 1)⟩ := joinColon_splitOnCharC _
      simp [geminiLineStep, helpersLineStep, hci, hi, hsplit, hkey_ne, hparts_ne, hjoin, hok.1, hok.2]
    · have hi0 : i = 0 := by omega
      subst hi0
      have hkey : (⟨line.data.take 0⟩ : String) = "" := rfl
      simp [geminiLineStep, helpersLineStep, hci, hsplit, hkey]

theorem foldl_lineSteps_eq (lines : List String) (acc : DataMap)
    (h : ∀ line ∈ lines, lineOk line = true) :
    lines.foldl geminiLineStep acc = lines.foldl helpersLineStep acc := by
  induction lines generalizing acc with
  | nil => rfl
  | cons x xs ih =>
    rw [List.foldl_cons, List.foldl_cons, lineStep_eq x (h x (by simp)) acc]
    exact ih _ (fun l hl => h l (by simp [hl]))

/-! ## Claim C9 -/

/-- C9 (counterexample): the two structured-data parsers are *not*
equivalent.  On a response whose data block holds the line `"a:"` (empty
value after the colon), `parseResponse` drops the entry while
`parseStructuredData` keeps `("a", "")`. -/
theorem c9_counterexample :
    (parseResponse "Hello [STRUCTURED_DATA]\na:\n[/STRUCTURED_DATA]").2 = []
    ∧ (parseStructuredData "Hello [STRUCTURED_DATA]\na:\n[/STRUCTURED_DATA]").2 = [("a", "")]
    ∧ (parseResponse "Hello [STRUCTURED_DATA]\na:\n[/STRUCTURED_DATA]").2
        ≠ (parseStructuredData "Hello [STRUCTURED_DATA]\na:\n[/STRUCTURED_DATA]").2 := by
  exact ⟨by decide, by decide, by decide⟩

/-- C9 (amended): the two parsers always return the same cleaned
message, and they return the same key→value mapping for every response
whose data-block lines each either lack a colon, start with one, or have
non-empty trimmed key and value.  (They differ in general: a line whose
key or value trims to empty is dropped by `parseResponse` but kept by
`parseStructuredData` — see the counterexample.) -/
theorem c9_parsers_agree_on_clean_lines (response : String)
    (h : ∀ line ∈ dataLinesOf response, lineOk line = true) :
    (parseResponse response).1 = (parseStructuredData response).1
    ∧ (parseResponse response).2 = (parseStructuredData response).2 := by
  rcases he : extractStructured response with _ | ⟨clean, inner⟩
  · simp [parseResponse, parseStructuredData, he]
  · have hlines : ∀ line ∈ splitLinesS (trimS inner), lineOk line = true := by
      intro line hl
      apply h
      simpa [dataLinesOf, he] using hl
    constructor
    · simp [parseResponse, parseStructuredData, he]
    · simp only [parseResponse, parseStructuredData, he]
      exact foldl_lineSteps_eq _ [] hlines

/-- C9 (witness): a concrete response with benign lines on which the
amended equivalence applies. -/
theorem c9_witness :
    (∀ line ∈ dataLinesOf "Hi[STRUCTURED_DATA]\ntype: bill\nconsumer_number: 1234567890\n[/STRUCTURED_DATA]",
      lineOk line = true)
    ∧ ((parseResponse "Hi[STRUCTURED_DATA]\ntype: bill\nconsumer_number: 1234567890\n[/STRUCTURED_DATA]").1
        = (parseStructuredData "Hi[STRUCTURED_DATA]\ntype: bill\nconsumer_number: 1234567890\n[/STRUCTURED_DATA]").1
      ∧ (parseResponse "Hi[STRUCTURED_DATA]\ntype: bill\nconsumer_number: 1234567890\n[/STRUCTURED_DATA]").2
        = (parseStructuredData "Hi[STRUCTURED_DATA]\ntype: bill\nconsumer_number: 1234567890\n[/STRUCTURED_DATA]").2) :=
  ⟨by decide, c9_parsers_agree_on_clean_lines _ (by decide)⟩

/-! ## Claim C6 -/

/-- C6: when the external language-model call throws, `sendToGemini`
returns exactly the deterministic fallback `getDemoResponse` for the
same message and context; the failure is never propagated (the function
is total and always yields a `ChatResponse`). -/
theorem c6_sendToGemini_fallback (e userMessage : String) (context : ConversationContext) :
    sendToGemini (Except.error e) userMessage context = getDemoResponse userMessage context := rfl

/-! ## Claim C3 -/

/-- C3 (counterexample): the late fee is `Math.floor(amount * 0.1)`, not
exactly ten percent.  For the overdue bill of amount 2455 the rendered
fee is 245, and `245 * 10 ≠ 2455`, so the fee is not equal to 10% of the
base amount. -/
theorem c3_counterexample :
    formatBillDetails 20260000 bill2455 = billBaseText bill2455 ++ billOverdueText 245 2700
    ∧ (245 : Nat) * 10 ≠ 2455 := by
  exact ⟨by decide, by decide⟩

/-- C3 (amended): for a bill strictly past due, `formatBillDetails`
appends a late fee equal to `⌊amount / 10⌋` (the floor of ten percent:
`10 * fee ≤ amount < 10 * fee + 10`) and a total payable of
`amount + fee`; for a bill not past due the message is the base text
alone — no late-fee or total line appears. -/
theorem c3_late_fee_floor_tenth (now : Nat) (bill : Bill) :
    (bill.due_date < now →
      formatBillDetails now bill
        = billBaseText bill ++ billOverdueText (bill.amount / 10) (bill.amount + bill.amount / 10)
      ∧ 10 * (bill.amount / 10) ≤ bill.amount
      ∧ bill.amount < 10 * (bill.amount / 10) + 10)
    ∧ (¬ bill.due_date < now → formatBillDetails now bill = billBaseText bill) := by
  constructor
  · intro h
    have hdm := Nat.div_add_mod bill.amount 10
    have hmod : bill.amount % 10 < 10 := Nat.mod_lt _ (by norm_num)
    refine ⟨?_, by omega, by omega⟩
    apply String.ext
    simp [formatBillDetails, billBaseText, billOverdueText, h, data_append]
  · intro h
    simp [formatBillDetails, billBaseText, h]

/-- C3 (witness): the overdue demo bill of amount 2455 instantiates the
amended statement. -/
theorem c3_witness :
    bill2455.due_date < 20260000
    ∧ (formatBillDetails 20260000 bill2455
        = billBaseText bill2455
            ++ billOverdueText (bill2455.amount / 10) (bill2455.amount + bill2455.amount / 10)
      ∧ 10 * (bill2455.amount / 10) ≤ bill2455.amount
      ∧ bill2455.amount < 10 * (bill2455.amount / 10) + 10) :=
  ⟨by decide, (c3_late_fee_floor_tenth 20260000 bill2455).1 (by decide)⟩

/-! ## Claim C10 -/

/-- C10 (counterexample): with a zero day-offset draw the fabricated
demo bill's due date equals the current date — it is not strictly in the
future as claimed. -/
theorem c10_counterexample :
    getBill demoBills 20260000 1500 0 3 "0000011111"
      = some { id := 3, consumer_number := "0000011111", bill_type := "electricity",
               amount := 2000, due_date := 20260000, status := "unpaid" }
    ∧ ¬ 20260000 < 20260000 := by
  exact ⟨by decide, by omega⟩

/-- C10 (amended): in demo mode `getBill` never returns `null`: a known
consumer number yields its stored bill, and an unknown one yields a
fabricated unpaid electricity bill whose amount lies in `[500, 5500)`
and whose due date lies between 0 and 29 days from now (so possibly
today, not necessarily strictly future).  Consequently the bill-not-found
reply branch of `processMessage` is unreachable: any action on a turn
whose merged data declares type `bill` is a successful `bill_found`. -/
theorem c10_demo_getBill_total (store : List (String × Bill)) (now r1 r2 r3 : Nat) (c : String) :
    (getBill store now r1 r2 r3 c).isSome = true
    ∧ (∀ b, storeLookup store c = some b → getBill store now r1 r2 r3 c = some b)
    ∧ (storeLookup store c = none →
        ∃ b, getBill store now r1 r2 r3 c = some b ∧ b.consumer_number = c
          ∧ b.bill_type = "electricity" ∧ b.status = "unpaid"
          ∧ 500 ≤ b.amount ∧ b.amount < 5500
          ∧ now ≤ b.due_date ∧ b.due_date < now + 30)
    ∧ (∀ env llm um ctx a, env.getBill = getBill store now r1 r2 r3 →
        (processMessage env llm um ctx).action = some a →
        dLookup (turnMergedData llm um ctx) "type" = some "bill" →
        a.type = ActionType.bill_found ∧ a.success = true) := by
  refine ⟨?_, ?_, ?_, ?_⟩
  · cases hs : storeLookup store c <;> simp [getBill, hs]
  · intro b hb
    simp [getBill, hb]
  · intro hn
    have hm1 : r1 % 5000 < 5000 := Nat.mod_lt _ (by norm_num)
    have hm2 : r2 % 30 < 30 := Nat.mod_lt _ (by norm_num)
    refine ⟨{ id := r3 % 1000, consumer_number := c, bill_type := "electricity",
              amount := r1 % 5000 + 500, due_date := now + r2 % 30, status := "unpaid" },
            ?_, rfl, rfl, rfl,
            by show (500 : Nat) ≤ r1 % 5000 + 500; omega,
            by show r1 % 5000 + 500 < 5500; omega,
            by show now ≤ now + r2 % 30; omega,
            by show now + r2 % 30 < now + 30; omega⟩
    simp [getBill, hn]
  · intro env llm um ctx a hgb ha ht
    obtain ⟨hshould, hae, -⟩ := processMessage_action_some env llm um ctx a ha
    have hcons := shouldExecuteAction_bill_consumer _ _ hshould ht
    have h1 : ¬ dLookup (turnMergedData llm um ctx) "type" = some "grievance" := by
      rw [ht]; simp
    have h2 : ¬ dLookup (turnMergedData llm um ctx) "type" = some "status_query" := by
      rw [ht]; simp
    have hsome : ∃ bV, env.getBill ((dLookup (turnMergedData llm um ctx) "consumer_number").getD "")
        = some bV := by
      rw [hgb]
      cases hs : storeLookup store ((dLookup (turnMergedData llm um ctx) "consumer_number").getD "") <;>
        simp [getBill, hs]
    obtain ⟨bV, hbV⟩ := hsome
    rw [hae]
    simp [executeAction, h1, h2, ht, hcons, hbV]

/-- C10 (witness): an unknown consumer number under the fixed demo
environment instantiates the amended statement, including the
unreachability clause. -/
theorem c10_witness :
    storeLookup demoBills "0000011111" = none
    ∧ (∃ b, getBill demoBills 20260000 1500 0 3 "0000011111" = some b
        ∧ b.consumer_number = "0000011111"
        ∧ b.bill_type = "electricity" ∧ b.status = "unpaid"
        ∧ 500 ≤ b.amount ∧ b.amount < 5500
        ∧ 20260000 ≤ b.due_date ∧ b.due_date < 20260000 + 30)
    ∧ ((executeAction envW (turnMergedData llmBillW "pay bill" ctxIdleW)
          (turnNewContext envW llmBillW "pay bill" ctxIdleW).attachments).1.type
            = ActionType.bill_found
        ∧ (executeAction envW (turnMergedData llmBillW "pay bill" ctxIdleW)
          (turnNewContext envW llmBillW "pay bill" ctxIdleW).attachments).1.success = true) :=
  ⟨by decide,
   (c10_demo_getBill_total demoBills 20260000 1500 0 3 "0000011111").2.2.1 (by decide),
   (c10_demo_getBill_total demoBills 20260000 1500 0 3 "0000011111").2.2.2 envW llmBillW
     "pay bill" ctxIdleW _ rfl (by decide) (by decide)⟩

/-! ## Claim C1 -/

/-- C1 (counterexample): the attachment precondition can be satisfied
with *zero* real attachments.  On a context with no attachments at all,
a generator response whose structured block carries an
`attachments: x` line merges the string `"x"` into
`collectedData.attachments`; the string passes the
`(attachments || []).length > 0` check, the `grievance_created` action
fires and the "Complaint Registered" confirmation is appended, while
the updated context holds no attachment list — only the injected
string. -/
theorem c1_counterexample :
    ctxIdleW.attachments = AttachSlot.undef
    ∧ (processMessage envW llmInjectW "hello" ctxIdleW).action
        = some { type := ActionType.grievance_created, success := true,
                 data := some (ActionData.grievanceId (some "GR00001")), message := none }
    ∧ (processMessage envW llmInjectW "hello" ctxIdleW).botMessage
        = "Done" ++ grievanceConfirmText (some "GR00001")
    ∧ (processMessage envW llmInjectW "hello" ctxIdleW).newContext.attachments
        = AttachSlot.str "x" := by
  exact ⟨rfl, by decide, by decide, by decide⟩

/-- C1 (amended): a `grievance_created` action (whose success appends
the "Complaint Registered" confirmation) is returned only when the
merged data holds a truthy category, description and location (area or
location) and the updated context's `collectedData.attachments` slot
passes the JS length check.  When that slot is a genuine attachment
array, the array is non-empty — the original guarantee; but the slot
can instead hold a non-empty string, which only enters through a turn
whose structured data contained an `attachments` key (or persists from
an earlier such turn), and then the action fires with zero real
attachments (see the counterexample). -/
theorem c1_grievance_action_attachment_check (env : ServiceEnv) (llm : Except String String)
    (um : String) (ctx : ConversationContext) (a : ActionResult)
    (ha : (processMessage env llm um ctx).action = some a)
    (ht : a.type = ActionType.grievance_created) :
    dLookup (turnMergedData llm um ctx) "type" = some "grievance"
    ∧ truthy (dLookup (turnMergedData llm um ctx) "category") = true
    ∧ truthy (dLookup (turnMergedData llm um ctx) "description") = true
    ∧ (truthy (dLookup (turnMergedData llm um ctx) "area") = true
       ∨ truthy (dLookup (turnMergedData llm um ctx) "location") = true)
    ∧ 0 < slotLength (if slotTruthy (processMessage env llm um ctx).newContext.attachments
                      then (processMessage env llm um ctx).newContext.attachments
                      else AttachSlot.list [])
    ∧ (∀ l, (processMessage env llm um ctx).newContext.attachments = AttachSlot.list l → l ≠ [])
    ∧ (∀ s, (processMessage env llm um ctx).newContext.attachments = AttachSlot.str s →
        dLookup (turnMergedData llm um ctx) "attachments" = some s
        ∨ ctx.attachments = AttachSlot.str s)
    ∧ ∃ gid, a.data = some (ActionData.grievanceId gid)
        ∧ (a.success = true →
           (processMessage env llm um ctx).botMessage
             = turnFinalMessage llm um ctx ++ grievanceConfirmText gid) := by
  obtain ⟨hshould, hae, hbot⟩ := processMessage_action_some env llm um ctx a ha
  obtain ⟨htype, hcat, hdesc, hloc, gid, hdata⟩ :=
    executeAction_grievance_created env (turnMergedData llm um ctx)
      (turnNewContext env llm um ctx).attachments (by rw [← hae]; exact ht)
  have hatts := shouldExecuteAction_grievance_attachments _ _ hshould htype
  have hslot : (processMessage env llm um ctx).newContext.attachments
      = (turnNewContext env llm um ctx).attachments := by
    rw [processMessage_newContext]
  have hdata' : a.data = some (ActionData.grievanceId gid) := by rw [hae]; exact hdata
  refine ⟨htype, hcat, hdesc, hloc, ?_, ?_, ?_, gid, hdata', ?_⟩
  · rw [hslot]
    exact hatts
  · intro l hl
    rw [hslot] at hl
    rw [hl] at hatts
    simp only [slotTruthy, if_true, slotLength] at hatts
    exact List.ne_nil_of_length_pos hatts
  · intro s hs
    rw [hslot] at hs
    exact turnNewContext_str_source env llm um ctx s hs
  · intro hsucc
    rw [hbot]
    rcases a with ⟨ty, succ, dat, amsg⟩
    simp only at ht hsucc hdata'
    subst ht hsucc hdata'
    simp [renderActionContent]

/-- C1 (witness): the genuine-array side of the amended statement — a
turn declaring a complete grievance on a context with one real
attachment fires the action, and the updated slot is a non-empty
array. -/
theorem c1_witness :
    (processMessage envW llmGrievW "hello" ctxAttOnlyW).action
      = some { type := ActionType.grievance_created, success := true,
               data := some (ActionData.grievanceId (some "GR00001")), message := none }
    ∧ [AttachEntry.att attW] ≠ ([] : List AttachEntry) :=
  ⟨by decide,
   (c1_grievance_action_attachment_check envW llmGrievW "hello" ctxAttOnlyW
     { type := ActionType.grievance_created, success := true,
       data := some (ActionData.grievanceId (some "GR00001")), message := none }
     (by decide) rfl).2.2.2.2.2.1 [AttachEntry.att attW] (by decide)⟩

/-! ## Claim C7 -/

/-- C7: whenever the merged structured data of a turn declares a (truthy)
`type`, the new context's `currentFlow` is overwritten with exactly
`getFlowFromType type`, and that map sends grievance→grievance,
application→certificate, bill→bill_payment, status_query→status_tracking
and everything else to idle. -/
theorem c7_flow_overwrite (env : ServiceEnv) (llm : Except String String) (um : String)
    (ctx : ConversationContext) (t : String)
    (hdecl : dLookup (turnMergedData llm um ctx) "type" = some t) (htne : t ≠ "") :
    (processMessage env llm um ctx).newContext.currentFlow = some (getFlowFromType t)
    ∧ getFlowFromType "grievance" = FlowType.grievance
    ∧ getFlowFromType "application" = FlowType.certificate
    ∧ getFlowFromType "bill" = FlowType.bill_payment
    ∧ getFlowFromType "status_query" = FlowType.status_tracking
    ∧ (∀ s, s ≠ "grievance" → s ≠ "application" → s ≠ "bill" → s ≠ "status_query" →
        getFlowFromType s = FlowType.idle) := by
  refine ⟨?_, by decide, by decide, by decide, by decide, ?_⟩
  · rw [processMessage_newContext]
    have htr : truthy (some t) = true := by simp [truthy, htne]
    simp [turnNewContext, hdecl, htr]
  · intro s h1 h2 h3 h4
    simp [getFlowFromType, h1, h2, h3, h4]

/-- C7 (witness): a generator turn declaring type `grievance` overwrites
the flow of an idle-attachment context to `grievance`. -/
theorem c7_witness :
    dLookup (turnMergedData llmGrievW "hello" ctxAttOnlyW) "type" = some "grievance"
    ∧ (processMessage envW llmGrievW "hello" ctxAttOnlyW).newContext.currentFlow
        = some (getFlowFromType "grievance") :=
  ⟨by decide,
   (c7_flow_overwrite envW llmGrievW "hello" ctxAttOnlyW "grievance" (by decide) (by decide)).1⟩

/-! ## Claim C8 -/

/-- C8 (counterexample): an attachment, once appended, *can* be removed.
On the completed context holding one real attachment, a turn whose
structured block carries only an `attachments: x` line overwrites the
stored attachment array with the string `"x"` via the shallow merge —
the previously appended attachment is gone. -/
theorem c8_counterexample :
    ctxFullW.attachments = AttachSlot.list [AttachEntry.att attW]
    ∧ (processMessage envW llmClobberW "hi" ctxFullW).newContext.attachments
        = AttachSlot.str "x"
    ∧ AttachSlot.str "x" ≠ AttachSlot.list [AttachEntry.att attW] := by
  exact ⟨rfl, by decide, by decide⟩

/-- C8 (amended): each turn's structured data is merged into
`collectedData` by shallow overwrite: a string field present before and
absent from this turn's merged data is unchanged, and no present field
is ever cleared.  The attachment array grows monotonically — the old
array is a prefix of the new one — on every turn whose merged
structured data contains no `attachments` key; a turn that does merge
an `attachments` key (and carries no attachment message) overwrites the
slot with that string, destroying previously appended attachments (see
the counterexample). -/
theorem c8_shallow_merge_growth (env : ServiceEnv) (llm : Except String String) (um : String)
    (ctx : ConversationContext) :
    (processMessage env llm um ctx).newContext.collectedData
      = mergeMaps ctx.collectedData (stripAttachmentsKey (turnMergedData llm um ctx))
    ∧ (∀ k v, dLookup ctx.collectedData k = some v →
        dLookup (turnMergedData llm um ctx) k = none →
        dLookup (processMessage env llm um ctx).newContext.collectedData k = some v)
    ∧ (∀ k, (dLookup ctx.collectedData k).isSome = true →
        (dLookup (processMessage env llm um ctx).newContext.collectedData k).isSome = true)
    ∧ (∀ l, dLookup (turnMergedData llm um ctx) "attachments" = none →
        ctx.attachments = AttachSlot.list l →
        ∃ added, (processMessage env llm um ctx).newContext.attachments
          = AttachSlot.list (l ++ added))
    ∧ (∀ v, dLookup (turnMergedData llm um ctx) "attachments" = some v →
        attachmentOfMessage um = none →
        (processMessage env llm um ctx).newContext.attachments = AttachSlot.str v) := by
  have hnc := processMessage_newContext env llm um ctx
  have hcd : (turnNewContext env llm um ctx).collectedData
      = mergeMaps ctx.collectedData (stripAttachmentsKey (turnMergedData llm um ctx)) := rfl
  refine ⟨?_, ?_, ?_, ?_, ?_⟩
  · rw [hnc, hcd]
  · intro k v hold hnew
    rw [hnc, hcd, dLookup_mergeMaps_of_absent _ _ _ (dLookup_strip_none _ _ hnew)]
    exact hold
  · intro k hk
    rw [hnc, hcd]
    exact isSome_dLookup_mergeMaps _ _ _ hk
  · intro l hmk hl
    rw [hnc]
    exact turnNewContext_list_growth env llm um ctx l hmk hl
  · intro v hmk ham
    rw [hnc]
    exact turnNewContext_clobber env llm um ctx v hmk ham

/-- C8 (witness): a turn declaring only bill data leaves the previously
collected `category` untouched and extends (here: preserves) the
attachment array. -/
theorem c8_witness :
    dLookup ctxFullW.collectedData "category" = some "roads"
    ∧ dLookup (turnMergedData llmBillW "pay bill" ctxFullW) "category" = none
    ∧ dLookup (processMessage envW llmBillW "pay bill" ctxFullW).newContext.collectedData "category"
        = some "roads"
    ∧ (∃ added, (processMessage envW llmBillW "pay bill" ctxFullW).newContext.attachments
        = AttachSlot.list ([AttachEntry.att attW] ++ added)) :=
  ⟨by decide, by decide,
   (c8_shallow_merge_growth envW llmBillW "pay bill" ctxFullW).2.1 "category" "roads"
     (by decide) (by decide),
   (c8_shallow_merge_growth envW llmBillW "pay bill" ctxFullW).2.2.2.1 [AttachEntry.att attW]
     (by decide) (by decide)⟩

/-! ## Claim C4 -/

/-- C4 (counterexample): because the flow is never reset after a
grievance is created, a completed grievance context files a *new* record
on every further turn.  Starting from the completed context, the turn
for the message "roads" (whose merged data repeats only already-merged
values — the collected data is unchanged) performs one `createGrievance`
call, and the identical next turn performs another: two separate records
from re-sent, already-merged fields. -/
theorem c4_counterexample :
    (processMessage envW (Except.error "quota") "roads" ctxFullW).grievanceCalls.length = 1
    ∧ (processMessage envW (Except.error "quota") "roads"
        (processMessage envW (Except.error "quota") "roads" ctxFullW).newContext).grievanceCalls.length = 1
    ∧ (processMessage envW (Except.error "quota") "roads"
        (processMessage envW (Except.error "quota") "roads" ctxFullW).newContext).newContext.collectedData
      = (processMessage envW (Except.error "quota") "roads" ctxFullW).newContext.collectedData := by
  exact ⟨by decide, by decide, by decide⟩

/-- C4 (amended): within a single `processMessage` turn at most one
grievance record is created, and only when the action-execution
precondition holds on the merged data and updated context; merging
already-present field values into a map leaves it unchanged.  (Across
turns, a context that still satisfies the precondition creates another
record — see the counterexample.) -/
theorem c4_at_most_one_creation_per_turn (env : ServiceEnv) (llm : Except String String)
    (um : String) (ctx : ConversationContext) :
    (processMessage env llm um ctx).grievanceCalls.length ≤ 1
    ∧ ((processMessage env llm um ctx).grievanceCalls ≠ [] →
        shouldExecuteAction (turnMergedData llm um ctx) (turnNewContext env llm um ctx) = true)
    ∧ (∀ d sub, (∀ p ∈ sub, dLookup d p.1 = some p.2) → mergeMaps d sub = d) := by
  refine ⟨?_, ?_, fun d sub h => mergeMaps_eq_of_contained d sub h⟩
  · cases h : shouldExecuteAction (turnMergedData llm um ctx) (turnNewContext env llm um ctx)
    · rw [processMessage_neg env llm um ctx h]
      simp
    · rw [processMessage_pos env llm um ctx h]
      exact executeAction_calls_le_one env (turnMergedData llm um ctx)
        (turnNewContext env llm um ctx).attachments
  · intro hne
    cases h : shouldExecuteAction (turnMergedData llm um ctx) (turnNewContext env llm um ctx)
    · rw [processMessage_neg env llm um ctx h] at hne
      simp at hne
    · rfl

/-- C4 (witness): the completed-context turn instantiates the amended
statement with a non-empty creation trace. -/
theorem c4_witness :
    (processMessage envW (Except.error "quota") "roads" ctxFullW).grievanceCalls ≠ []
    ∧ shouldExecuteAction (turnMergedData (Except.error "quota") "roads" ctxFullW)
        (turnNewContext envW (Except.error "quota") "roads" ctxFullW) = true :=
  ⟨by decide,
   (c4_at_most_one_creation_per_turn envW (Except.error "quota") "roads" ctxFullW).2.1
     (by decide)⟩

/-! ## Claim C5 -/

/-- C5 (counterexample): in demo mode an unknown *application* id does
not produce a not-found result: `getApplication` fabricates a mock
"Under Review" application, the action succeeds, and a status card (not
the "Request Not Found" message) is shown. -/
theorem c5_counterexample :
    storeLookup ([] : List (String × Application)) "APP99999" = none
    ∧ envW.getApplication "APP99999"
        = some (mockDemoApplication "APP99999" "2025-01-01T00:00:00.000Z")
    ∧ (processMessage envW llmStatusAppW "status" ctxIdleW).action
        = some { type := ActionType.status_fetched, success := true,
                 data := some (ActionData.applicationRecord
                   (mockDemoApplication "APP99999" "2025-01-01T00:00:00.000Z")),
                 message := none } := by
  exact ⟨rfl, by decide, by decide⟩

/-- C5 (amended): for a status query by grievance id, an unknown id (the
grievance lookup returns `null`, as the demo store lookup does for any
unstored id) yields a failed `status_fetched` action and the "Request
Not Found" reply, with no exception (the embedding is total); the same
holds for an application id whenever the application lookup returns
`null` (the connected-mode not-found path) — but not in demo mode, where
the application lookup fabricates a mock record (see the
counterexample). -/
theorem c5_unknown_id_not_found (env : ServiceEnv) (llm : Except String String) (um : String)
    (ctx : ConversationContext) :
    (∀ gid, dLookup (turnMergedData llm um ctx) "type" = some "status_query" →
      dLookup (turnMergedData llm um ctx) "grievance_id" = some gid → gid ≠ "" →
      env.getGrievance gid = none →
      (processMessage env llm um ctx).action
        = some { type := ActionType.status_fetched, success := false, data := none, message := none }
      ∧ (processMessage env llm um ctx).botMessage = requestNotFoundText gid)
    ∧ (∀ aid, dLookup (turnMergedData llm um ctx) "type" = some "status_query" →
      truthy (dLookup (turnMergedData llm um ctx) "grievance_id") = false →
      dLookup (turnMergedData llm um ctx) "application_id" = some aid → aid ≠ "" →
      env.getApplication aid = none →
      (processMessage env llm um ctx).action
        = some { type := ActionType.status_fetched, success := false, data := none, message := none }
      ∧ (processMessage env llm um ctx).botMessage = requestNotFoundText aid)
    ∧ (∀ store id, storeLookup store id = none → demoGetGrievance store id = none) := by
  refine ⟨?_, ?_, ?_⟩
  · intro gid ht hgid hgne hnone
    have htr : truthy (dLookup (turnMergedData llm um ctx) "grievance_id") = true := by
      rw [hgid]
      simp [truthy, hgne]
    have hshould := shouldExecuteAction_status_query (turnMergedData llm um ctx)
      (turnNewContext env llm um ctx) ht (Or.inl htr)
    have h1 : ¬ dLookup (turnMergedData llm um ctx) "type" = some "grievance" := by
      rw [ht]; simp
    have hget : env.getGrievance ((dLookup (turnMergedData llm um ctx) "grievance_id").getD "")
        = none := by
      rw [hgid]
      exact hnone
    have hexec : executeAction env (turnMergedData llm um ctx)
        (turnNewContext env llm um ctx).attachments
        = ({ type := ActionType.status_fetched, success := false, data := none, message := none },
           []) := by
      simp [executeAction, h1, ht, htr, hget]
    rw [processMessage_pos env llm um ctx hshould]
    constructor
    · simp [hexec]
    · simp only [hexec]
      simp [renderActionContent, ht, jsOr, hgid, truthy, hgne, renderOpt]
  · intro aid ht htrg haid hane hnone
    have htra : truthy (dLookup (turnMergedData llm um ctx) "application_id") = true := by
      rw [haid]
      simp [truthy, hane]
    have hshould := shouldExecuteAction_status_query (turnMergedData llm um ctx)
      (turnNewContext env llm um ctx) ht (Or.inr htra)
    have h1 : ¬ dLookup (turnMergedData llm um ctx) "type" = some "grievance" := by
      rw [ht]; simp
    have hget : env.getApplication ((dLookup (turnMergedData llm um ctx) "application_id").getD "")
        = none := by
      rw [haid]
      exact hnone
    have hexec : executeAction env (turnMergedData llm um ctx)
        (turnNewContext env llm um ctx).attachments
        = ({ type := ActionType.status_fetched, success := false, data := none, message := none },
           []) := by
      simp [executeAction, h1, ht, htrg, htra, hget]
    rw [processMessage_pos env llm um ctx hshould]
    constructor
    · simp [hexec]
    · simp only [hexec]
      simp [renderActionContent, ht, jsOr, htrg, haid, renderOpt]
  · intro store id h
    simp [demoGetGrievance, h]

/-- C5 (witness): an unknown grievance id `GR99999` under the demo
environment yields the failed action and the "Request Not Found" reply. -/
theorem c5_witness :
    dLookup (turnMergedData llmStatusGrW "status" ctxIdleW) "type" = some "status_query"
    ∧ dLookup (turnMergedData llmStatusGrW "status" ctxIdleW) "grievance_id" = some "GR99999"
    ∧ envW.getGrievance "GR99999" = none
    ∧ (processMessage envW llmStatusGrW "status" ctxIdleW).action
        = some { type := ActionType.status_fetched, success := false, data := none, message := none }
    ∧ (processMessage envW llmStatusGrW "status" ctxIdleW).botMessage
        = requestNotFoundText "GR99999" := by
  have h := (c5_unknown_id_not_found envW llmStatusGrW "status" ctxIdleW).1 "GR99999"
    (by decide) (by decide) (by decide) (by decide)
  exact ⟨by decide, by decide, by decide, h.1, h.2⟩

/-! ## Claim C2 -/

theorem getDemoResponse_grievance_branch (um : String) (ctx : ConversationContext) (l : String)
    (hflow : ctx.currentFlow = some FlowType.grievance)
    (hlang : ctx.language = some l) (hl : l ≠ "")
    (hcat : truthy (dLookup ctx.collectedData "category") = true) :
    getDemoResponse um ctx = grievanceFlowResponse um ctx l := by
  have h0 : truthy ctx.language = true := by
    rw [hlang]
    simp [truthy, hl]
  simp only [getDemoResponse]
  rw [if_neg (by rintro ⟨hfalse, -⟩; rw [h0] at hfalse; cases hfalse)]
  rw [if_neg (by rintro ⟨hb, -⟩; rw [hflow] at hb; simp at hb)]
  rw [if_pos ⟨hflow, hcat⟩]
  rw [h0, hlang]
  simp

/-- C2 (counterexample): the demo grievance flow does *not* always
prompt for the first missing field.  In a grievance context that already
holds an attachment but no description, the turn that captures the
description still replies with the photo request, although after the
merge every field — category, location, landmark, description and
photo — is present; the reply is not the no-field-missing completion
message. -/
theorem c2_counterexample :
    (getDemoResponse "Big pothole near the school" ctxEarlyAttW).message = askPhotoMsg "en"
    ∧ truthy (dLookup (mergeMaps ctxEarlyAttW.collectedData
        (getDemoResponse "Big pothole near the school" ctxEarlyAttW).structuredData) "category") = true
    ∧ truthy (dLookup (mergeMaps ctxEarlyAttW.collectedData
        (getDemoResponse "Big pothole near the school" ctxEarlyAttW).structuredData) "location") = true
    ∧ truthy (dLookup (mergeMaps ctxEarlyAttW.collectedData
        (getDemoResponse "Big pothole near the school" ctxEarlyAttW).structuredData) "landmark") = true
    ∧ truthy (dLookup (mergeMaps ctxEarlyAttW.collectedData
        (getDemoResponse "Big pothole near the school" ctxEarlyAttW).structuredData) "description") = true
    ∧ ctxEarlyAttW.attachments = AttachSlot.list [AttachEntry.att attW]
    ∧ 0 < slotLength ctxEarlyAttW.attachments
    ∧ askPhotoMsg "en" ≠ grievanceDoneMsg "en" := by
  exact ⟨by decide, by decide, by decide, by decide, by decide, rfl, by decide, by decide⟩

/-- C2 (amended): in the fallback generator, for every grievance-flow
context with a truthy category and a selected language, the turn
captures the user message into exactly the first missing textual field
in the order location → landmark → description (each branch chosen by
which field is absent in `collectedData`, not by a step counter) and the
reply prompts for the step that follows; when all textual fields are
present the bot re-prompts for a photo if no attachment exists and the
message is not an attachment, and otherwise confirms registration.  The
description-capturing turn asks for a photo unconditionally, even if an
attachment already exists (see the counterexample). -/
theorem c2_demo_grievance_field_order (um : String) (ctx : ConversationContext) (l : String)
    (hflow : ctx.currentFlow = some FlowType.grievance)
    (hlang : ctx.language = some l) (hl : l ≠ "")
    (hcat : truthy (dLookup ctx.collectedData "category") = true) :
    (truthy (dLookup ctx.collectedData "location") = false →
      dLookup (mergeMaps ctx.collectedData (getDemoResponse um ctx).structuredData) "location"
          = some um
      ∧ dLookup (mergeMaps ctx.collectedData (getDemoResponse um ctx).structuredData) "category"
          = dLookup ctx.collectedData "category"
      ∧ dLookup (mergeMaps ctx.collectedData (getDemoResponse um ctx).structuredData) "landmark"
          = dLookup ctx.collectedData "landmark"
      ∧ dLookup (mergeMaps ctx.collectedData (getDemoResponse um ctx).structuredData) "description"
          = dLookup ctx.collectedData "description"
      ∧ (getDemoResponse um ctx).message = askLandmarkMsg l)
    ∧ (truthy (dLookup ctx.collectedData "location") = true →
       truthy (dLookup ctx.collectedData "landmark") = false →
      dLookup (mergeMaps ctx.collectedData (getDemoResponse um ctx).structuredData) "landmark"
          = some um
      ∧ dLookup (mergeMaps ctx.collectedData (getDemoResponse um ctx).structuredData) "category"
          = dLookup ctx.collectedData "category"
      ∧ dLookup (mergeMaps ctx.collectedData (getDemoResponse um ctx).structuredData) "location"
          = dLookup ctx.collectedData "location"
      ∧ dLookup (mergeMaps ctx.collectedData (getDemoResponse um ctx).structuredData) "description"
          = dLookup ctx.collectedData "description"
      ∧ (getDemoResponse um ctx).message = askDescriptionMsg l)
    ∧ (truthy (dLookup ctx.collectedData "location") = true →
       truthy (dLookup ctx.collectedData "landmark") = true →
       truthy (dLookup ctx.collectedData "description") = false →
      dLookup (mergeMaps ctx.collectedData (getDemoResponse um ctx).structuredData) "description"
          = some um
      ∧ dLookup (mergeMaps ctx.collectedData (getDemoResponse um ctx).structuredData) "category"
          = dLookup ctx.collectedData "category"
      ∧ dLookup (mergeMaps ctx.collectedData (getDemoResponse um ctx).structuredData) "location"
          = dLookup ctx.collectedData "location"
      ∧ dLookup (mergeMaps ctx.collectedData (getDemoResponse um ctx).structuredData) "landmark"
          = dLookup ctx.collectedData "landmark"
      ∧ (getDemoResponse um ctx).message = askPhotoMsg l)
    ∧ (truthy (dLookup ctx.collectedData "location") = true →
       truthy (dLookup ctx.collectedData "landmark") = true →
       truthy (dLookup ctx.collectedData "description") = true →
       (beginsWith um "[ATTACHMENT:" || slotHasItems ctx.attachments) = false →
      dLookup (mergeMaps ctx.collectedData (getDemoResponse um ctx).structuredData) "category"
          = dLookup ctx.collectedData "category"
      ∧ dLookup (mergeMaps ctx.collectedData (getDemoResponse um ctx).structuredData) "location"
          = dLookup ctx.collectedData "location"
      ∧ dLookup (mergeMaps ctx.collectedData (getDemoResponse um ctx).structuredData) "landmark"
          = dLookup ctx.collectedData "landmark"
      ∧ dLookup (mergeMaps ctx.collectedData (getDemoResponse um ctx).structuredData) "description"
          = dLookup ctx.collectedData "description"
      ∧ (getDemoResponse um ctx).message = askPhotoStrictMsg l)
    ∧ (truthy (dLookup ctx.collectedData "location") = true →
       truthy (dLookup ctx.collectedData "landmark") = true →
       truthy (dLookup ctx.collectedData "description") = true →
       (beginsWith um "[ATTACHMENT:" || slotHasItems ctx.attachments) = true →
      dLookup (mergeMaps ctx.collectedData (getDemoResponse um ctx).structuredData) "category"
          = dLookup ctx.collectedData "category"
      ∧ dLookup (mergeMaps ctx.collectedData (getDemoResponse um ctx).structuredData) "location"
          = dLookup ctx.collectedData "location"
      ∧ dLookup (mergeMaps ctx.collectedData (getDemoResponse um ctx).structuredData) "landmark"
          = dLookup ctx.collectedData "landmark"
      ∧ dLookup (mergeMaps ctx.collectedData (getDemoResponse um ctx).structuredData) "description"
          = dLookup ctx.collectedData "description"
      ∧ (getDemoResponse um ctx).message = grievanceDoneMsg l) := by
  have hd := getDemoResponse_grievance_branch um ctx l hflow hlang hl hcat
  obtain ⟨c, hc, hcne⟩ := (truthy_iff _).mp hcat
  refine ⟨?_, ?_, ?_, ?_, ?_⟩
  · intro hloc
    have hr : getDemoResponse um ctx
        = { message := askLandmarkMsg l,
            structuredData := [("type", "grievance"),
              ("category", (dLookup ctx.collectedData "category").getD ""),
              ("location", um)] } := by
      rw [hd]
      simp only [grievanceFlowResponse]
      rw [if_pos hloc]
    rw [hr]
    refine ⟨?_, ?_, ?_, ?_, rfl⟩ <;>
      simp [mergeMaps, dLookup_insertKV_self, dLookup_insertKV_ne, hc]
  · intro hloc hlm
    obtain ⟨lv, hlv, hlvne⟩ := (truthy_iff _).mp hloc
    have hr : getDemoResponse um ctx
        = { message := askDescriptionMsg l,
            structuredData := [("type", "grievance"),
              ("category", (dLookup ctx.collectedData "category").getD ""),
              ("location", (dLookup ctx.collectedData "location").getD ""),
              ("landmark", um)] } := by
      rw [hd]
      simp only [grievanceFlowResponse]
      rw [if_neg (by simp [hloc]), if_pos hlm]
    rw [hr]
    refine ⟨?_, ?_, ?_, ?_, rfl⟩ <;>
      simp [mergeMaps, dLookup_insertKV_self, dLookup_insertKV_ne, hc, hlv]
  · intro hloc hlm hdesc
    obtain ⟨lv, hlv, hlvne⟩ := (truthy_iff _).mp hloc
    obtain ⟨mv, hmv, hmvne⟩ := (truthy_iff _).mp hlm
    have hr : getDemoResponse um ctx
        = { message := askPhotoMsg l,
            structuredData := [("type", "grievance"),
              ("category", (dLookup ctx.collectedData "category").getD ""),
              ("location", (dLookup ctx.collectedData "location").getD ""),
              ("landmark", (dLookup ctx.collectedData "landmark").getD ""),
              ("description", um)] } := by
      rw [hd]
      simp only [grievanceFlowResponse]
      rw [if_neg (by simp [hloc]), if_neg (by simp [hlm]), if_pos hdesc]
    rw [hr]
    refine ⟨?_, ?_, ?_, ?_, rfl⟩ <;>
      simp [mergeMaps, dLookup_insertKV_self, dLookup_insertKV_ne, hc, hlv, hmv]
  · intro hloc hlm hdesc hatt
    obtain ⟨lv, hlv, hlvne⟩ := (truthy_iff _).mp hloc
    obtain ⟨mv, hmv, hmvne⟩ := (truthy_iff _).mp hlm
    obtain ⟨dv, hdv, hdvne⟩ := (truthy_iff _).mp hdesc
    have hr : getDemoResponse um ctx
        = { message := askPhotoStrictMsg l,
            structuredData := [("type", "grievance"),
              ("category", (dLookup ctx.collectedData "category").getD ""),
              ("location", (dLookup ctx.collectedData "location").getD ""),
              ("landmark", (dLookup ctx.collectedData "landmark").getD ""),
              ("description", (dLookup ctx.collectedData "description").getD "")] } := by
      rw [hd]
      simp only [grievanceFlowResponse]
      rw [if_neg (by simp [hloc]), if_neg (by simp [hlm]), if_neg (by simp [hdesc]),
        if_pos hatt]
    rw [hr]
    refine ⟨?_, ?_, ?_, ?_, rfl⟩ <;>
      simp [mergeMaps, dLookup_insertKV_self, dLookup_insertKV_ne, hc, hlv, hmv, hdv]
  · intro hloc hlm hdesc hatt
    obtain ⟨lv, hlv, hlvne⟩ := (truthy_iff _).mp hloc
    obtain ⟨mv, hmv, hmvne⟩ := (truthy_iff _).mp hlm
    obtain ⟨dv, hdv, hdvne⟩ := (truthy_iff _).mp hdesc
    have hr : getDemoResponse um ctx
        = { message := grievanceDoneMsg l,
            structuredData := [("type", "grievance"),
              ("category", (dLookup ctx.collectedData "category").getD ""),
              ("location", (dLookup ctx.collectedData "location").getD ""),
              ("landmark", (dLookup ctx.collectedData "landmark").getD ""),
              ("description", (dLookup ctx.collectedData "description").getD "")] } := by
      rw [hd]
      simp only [grievanceFlowResponse]
      rw [if_neg (by simp [hloc]), if_neg (by simp [hlm]), if_neg (by simp [hdesc]),
        if_neg (by simp [hatt])]
    rw [hr]
    refine ⟨?_, ?_, ?_, ?_, rfl⟩ <;>
      simp [mergeMaps, dLookup_insertKV_self, dLookup_insertKV_ne, hc, hlv, hmv, hdv]

/-- C2 (witness): with only the category collected, the turn captures
the user message as the location and prompts for the landmark. -/
theorem c2_witness :
    truthy (dLookup ctxCatW.collectedData "location") = false
    ∧ dLookup (mergeMaps ctxCatW.collectedData
        (getDemoResponse "Ward 5" ctxCatW).structuredData) "location" = some "Ward 5"
    ∧ (getDemoResponse "Ward 5" ctxCatW).message = askLandmarkMsg "en" := by
  have h := (c2_demo_grievance_field_order "Ward 5" ctxCatW "en" rfl rfl (by decide)
    (by decide)).1 (by decide)
  exact ⟨by decide, h.1, h.2.2.2.2⟩

end CitizenServices
